import Mathlib

/-!
# DC measurement test method (`Origen::TestMethod::DCMeasurement`)

A shallow embedding of `dc_measurement.cpp`.

* Configuration values and limit bounds of type `double` are the exact rationals they denote
  (`ℚ`); comparing them and taking `abs` is exact. Values computed or read at run time and
  stored in `results` are of type `Double` (IEEE 754 binary64: a finite number, an infinity or
  not-a-number), and the arithmetic of line 222 rounds each operation to nearest, ties to even.
  The sign of zero is not tracked.
* `int` flags are `Int`, tested for truth by `≠ 0`.
* `std::vector` members are lists, written with `List.set` at the site index.
* Calls to collaborators that live outside the file (the limit provider, the `rdi` instrument
  interface, `cout`, pin metadata) are recorded, in program order, as an event list; the
  values they hand back are fields of `Env`.
* `_execute` is the block between `ON_FIRST_INVOCATION_BEGIN()` and `ON_FIRST_INVOCATION_END()`,
  i.e. one guarded run of the method; `FOR_EACH_SITE_BEGIN/END` iterates over the active sites.
* `ERROR_EXIT(code)` leaves the method immediately with `code`.
-/

namespace Origen.TestMethod

/-! ## Data model -/

/-- Comparison kind of a limit bound (`TM::COMPARE`); `NA` marks a bound that does not apply. -/
inductive COMPARE
  | NA
  | LT
  | LE
  | GT
  | GE
  deriving DecidableEq

/-- A value of type `double`: a finite number, an infinity (`negative` tells its sign), or
not-a-number. -/
inductive Double
  | finite (q : ℚ)
  | inf (negative : Bool)
  | nan
  deriving DecidableEq

/-- The integer part of the base-2 logarithm of `n` (0 when `n < 2`), by halving; `fuel`
bounds the number of halvings and `n` itself is always enough. -/
def log2Aux : Nat → Nat → Nat
  | 0, _ => 0
  | fuel + 1, n => if n < 2 then 0 else log2Aux fuel (n / 2) + 1

/-- The integer part of the base-2 logarithm of the positive rational `n / d`: the difference
of the logarithms of `n` and `d`, or one less. -/
def floorLog2 (n d : Nat) : Int :=
  let k : Int := (log2Aux n n : Int) - (log2Aux d d : Int)
  if 0 ≤ k then (if d * 2 ^ k.toNat ≤ n then k else k - 1)
  else (if d ≤ n * 2 ^ (-k).toNat then k else k - 1)

/-- The integer nearest to `n / d`, a tie going to the even neighbour. -/
def roundHalfEven (n d : Nat) : Nat :=
  if 2 * (n % d) < d then n / d
  else if d < 2 * (n % d) then n / d + 1
  else if (n / d) % 2 = 0 then n / d else n / d + 1

/-- Rounding of an exact result to binary64, to nearest, ties to even: a significand `m` of at
most 53 bits at exponent `e`, with `e` no smaller than -1074 (subnormal numbers), and an
infinity once the rounded magnitude `m * 2 ^ e` reaches `2 ^ 1024`. -/
def Double.round (x : ℚ) : Double :=
  if x = 0 then Double.finite 0
  else
    let n := x.num.natAbs
    let d := x.den
    let e : Int := max (floorLog2 n d - 52) (-1074)
    let m : Nat := if 0 ≤ e then roundHalfEven n (d * 2 ^ e.toNat)
                   else roundHalfEven (n * 2 ^ (-e).toNat) d
    if 972 ≤ e ∨ (e = 971 ∧ m = 2 ^ 53) then Double.inf (decide (x < 0))
    else
      let mag : ℚ := if 0 ≤ e then ((m * 2 ^ e.toNat : Nat) : ℚ) else mkRat m (2 ^ (-e).toNat)
      Double.finite (if x < 0 then -mag else mag)

/-- The operator `-` on `double`. -/
def Double.sub : Double → Double → Double
  | Double.finite a, Double.finite b => Double.round (a - b)
  | Double.finite _, Double.inf s => Double.inf (!s)
  | Double.inf s, Double.finite _ => Double.inf s
  | Double.inf s, Double.inf t => if s = t then Double.nan else Double.inf s
  | _, _ => Double.nan

/-- The operator `+` on `double`. -/
def Double.add : Double → Double → Double
  | Double.finite a, Double.finite b => Double.round (a + b)
  | Double.finite _, Double.inf s => Double.inf s
  | Double.inf s, Double.finite _ => Double.inf s
  | Double.inf s, Double.inf t => if s = t then Double.inf s else Double.nan
  | _, _ => Double.nan

/-- Division of a `double` by the constant 2 (`x / 2`). -/
def Double.half : Double → Double
  | Double.finite a => Double.round (a / 2)
  | Double.inf s => Double.inf s
  | Double.nan => Double.nan

/-- The four values handed back by `TEST_API_LIMIT.get(cLow, dLow, cHigh, dHigh)`; also the
limit argument of `SMC_TEST` (`LIMIT(TM::GE, 1, TM::LE, 1)` is `⟨GE, 1, LE, 1⟩`). -/
structure Limits where
  cLow : COMPARE
  dLow : ℚ
  cHigh : COMPARE
  dHigh : ℚ
  deriving DecidableEq

/-- Exit codes accepted by `ERROR_EXIT`. -/
inductive ExitCode
  | ABORT_FLOW
  deriving DecidableEq

/-- The two relay settings named in the source (`TA::ppmuRly_...`). -/
inductive Relay
  | ppmuRly_onPPMU_offACDC
  | ppmuRly_onAC_offDCPPMU
  deriving DecidableEq

/-- One link of an `rdi.dc(...)` builder chain. -/
inductive DcOp
  | vForce (v : ℚ)
  | iForce (v : ℚ)
  | disconnect
  | connect
  | clamp (lo hi : ℚ)
  | vRange (v : ℚ)
  | iRange (r : ℚ)
  | measWait (t : ℚ)
  | relay (a b : Relay)
  | vMeas
  | iMeas
  deriving DecidableEq

/-- A complete `rdi[.port(p)].dc(id).pin(pin[, TA::BADC])...execute()` command.
`port = ""` stands for a chain without `.port(...)`, `id = ""` for `rdi.dc()`, and `filtered`
records that `filterRDI` was applied to the chain before `execute()`. -/
structure DcCommand where
  port : String
  id : String
  pin : String
  badc : Bool
  ops : List DcOp
  filtered : Bool
  deriving DecidableEq

/-- Calls made by `_execute` to its collaborators, in program order. -/
inductive Event
  | limitGet
  | cout (msg : String)
  | rdiBegin
  | rdiEnd
  | funcLabel (id label : String)
  | funcBurst (port id label : String)
  | callHoldState
  | getPinType (pin : String)
  | dc (c : DcCommand)
  | waitMs (t : ℚ)
  | getPassFail (id : String) (site : Nat)
  | getValue (id : String) (site : Nat)
  deriving DecidableEq

/-- Calls that go to the instrument interface `rdi`. -/
def Event.isRdi : Event → Bool
  | .rdiBegin => true
  | .rdiEnd => true
  | .funcLabel _ _ => true
  | .funcBurst _ _ _ => true
  | .dc _ => true
  | .waitMs _ => true
  | .getPassFail _ _ => true
  | .getValue _ _ => true
  | _ => false

/-- The dc force / measure / connect / disconnect commands and the instrument wait. -/
def Event.isDcOrWait : Event → Bool
  | .dc _ => true
  | .waitMs _ => true
  | _ => false

/-- Number of calls to the limit provider in an event list. -/
def limitFetches (log : List Event) : Nat :=
  log.count Event.limitGet

/-- Collaborators of the test method: what they return during one run. -/
structure Env where
  /-- Result of `testLimits().TEST_API_LIMIT.get`. -/
  limits : Limits
  /-- Result of `offline()`. -/
  offline : Bool
  /-- Sites visited by `FOR_EACH_SITE` and stored in `activeSites`. -/
  activeSites : List Nat
  /-- Result of `PinUtility.getPinType`. -/
  getPinType : String → String
  /-- Result of `rdi.id(id).getPassFail()` on a site. -/
  getPassFail : String → Nat → Bool
  /-- Result of `rdi.id(id).getValue()` on a site. -/
  getValue : String → Nat → Double
  /-- Hook of the base class applied to functional results. -/
  invertFunctionalResultIfRequired : Int → Int
  /-- Hook of the base class applied to measured values. -/
  filterResult : Double → Double
  /-- Result of `testName()`. -/
  testName : String
  /-- Value of `numberOfPhysicalSites`. -/
  numberOfPhysicalSites : Nat
  /-- Result of `extractPinsFromGroup`. -/
  extractPinsFromGroup : String → String
  /-- Result of `Primary.getLabel()`. -/
  primaryLabel : String

/-- Members of `DCMeasurement`. -/
structure DCMeasurement where
  _applyShutdown : Int
  _shutdownPattern : String
  _checkShutdown : Int
  _measure : String
  _settlingTime : ℚ
  _pin : String
  _port : String
  _forceValue : ℚ
  _iRange : ℚ
  _processResults : Int
  _badc : Int
  _clampLo : ℚ
  _clampHi : ℚ
  label : String
  suiteName : String
  results : List Double
  funcResultsPre : List Int
  funcResultsPost : List Int
  deriving DecidableEq

namespace DCMeasurement

/-! ## Setters (lines 24-35) -/

def applyShutdown (tm : DCMeasurement) (v : Int) : DCMeasurement := { tm with _applyShutdown := v }

def shutdownPattern (tm : DCMeasurement) (v : String) : DCMeasurement :=
  { tm with _shutdownPattern := v }

def checkShutdown (tm : DCMeasurement) (v : Int) : DCMeasurement := { tm with _checkShutdown := v }

def measure (tm : DCMeasurement) (v : String) : DCMeasurement := { tm with _measure := v }

def settlingTime (tm : DCMeasurement) (v : ℚ) : DCMeasurement := { tm with _settlingTime := v }

def pin (tm : DCMeasurement) (v : String) : DCMeasurement := { tm with _pin := v }

def port (tm : DCMeasurement) (v : String) : DCMeasurement := { tm with _port := v }

def forceValue (tm : DCMeasurement) (v : ℚ) : DCMeasurement := { tm with _forceValue := v }

def iRange (tm : DCMeasurement) (v : ℚ) : DCMeasurement := { tm with _iRange := v }

def processResults (tm : DCMeasurement) (v : Int) : DCMeasurement :=
  { tm with _processResults := v }

def badc (tm : DCMeasurement) (v : Int) : DCMeasurement := { tm with _badc := v }

def clamp (tm : DCMeasurement) (v y : ℚ) : DCMeasurement := { tm with _clampLo := v, _clampHi := y }

/-- The constructor (lines 9-20): the defaults, over empty strings and empty vectors. -/
def new : DCMeasurement :=
  let tm : DCMeasurement :=
    { _applyShutdown := 0, _shutdownPattern := "", _checkShutdown := 0, _measure := "",
      _settlingTime := 0, _pin := "", _port := "", _forceValue := 0, _iRange := 0,
      _processResults := 0, _badc := 0, _clampLo := 0, _clampHi := 0, label := "",
      suiteName := "", results := [], funcResultsPre := [], funcResultsPost := [] }
  ((((((((((tm.applyShutdown 1).checkShutdown 1).measure "VOLT").settlingTime 0).forceValue 0).iRange
    0).processResults 1).badc 0).port "").clamp 0 5)

/-- The call `v.resize(n)` on a vector of numbers: keep the first `n` entries, pad with `zero`
(the value-initialised element, `0` or `0.0`). -/
def resize {α : Type} (zero : α) (v : List α) (n : Nat) : List α :=
  v.take n ++ List.replicate (n - v.length) zero

/-- The method `_setup` (lines 40-46). -/
def _setup (env : Env) (tm : DCMeasurement) : DCMeasurement :=
  let tm := tm.pin (env.extractPinsFromGroup tm._pin)
  { tm with
    results := resize (Double.finite 0) tm.results (env.numberOfPhysicalSites + 1)
    funcResultsPre := resize 0 tm.funcResultsPre (env.numberOfPhysicalSites + 1)
    funcResultsPost := resize 0 tm.funcResultsPost (env.numberOfPhysicalSites + 1)
    label := env.primaryLabel }

/-! ## `_execute` (lines 48-238) -/

/-- How a run of `_execute` ends: it reaches the end of the block, or leaves through
`ERROR_EXIT`. Both carry the members and the events issued up to that point. -/
inductive Outcome
  | completed (tm : DCMeasurement) (log : List Event)
  | errorExit (code : ExitCode) (tm : DCMeasurement) (log : List Event)
  deriving DecidableEq

/-- Lines 54-60: derive the shutdown pattern name. -/
def resolveShutdownPattern (tm : DCMeasurement) : DCMeasurement :=
  if tm._applyShutdown ≠ 0 then
    if tm._shutdownPattern = "" then tm.shutdownPattern (tm.label ++ "_part1") else tm
  else tm

/-- The diagnostic printed at line 75. -/
def rangeErrorMessage : String :=
  "ERROR: If your current measurement does not have a limit, you must supply the current range"

/-- Lines 62-83: resolve an unset current range from the limits. `!_iRange` is `_iRange = 0`,
and `abs` is `std::abs` on `double`. -/
def resolveRange (env : Env) (tm : DCMeasurement) : Outcome :=
  if tm._iRange = 0 ∧ tm._measure = "CURR" then
    let dLow : ℚ := if env.limits.cLow = COMPARE.NA then 0 else env.limits.dLow
    let dHigh : ℚ := if env.limits.cHigh = COMPARE.NA then 0 else env.limits.dHigh
    if dLow = 0 ∧ dHigh = 0 then
      Outcome.errorExit ExitCode.ABORT_FLOW tm [Event.limitGet, Event.cout rangeErrorMessage]
    else if abs dLow > abs dHigh then
      Outcome.completed { tm with _iRange := abs dLow } [Event.limitGet]
    else
      Outcome.completed { tm with _iRange := abs dHigh } [Event.limitGet]
  else Outcome.completed tm []

/-- Lines 87-91: the functional burst before the measurement. -/
def preBurst (tm : DCMeasurement) : List Event :=
  if tm._port = "" then [Event.funcLabel (tm.suiteName ++ "f1") tm.label]
  else [Event.funcBurst tm._port (tm.suiteName ++ "f1") tm.label]

/-- Lines 127-128 and 136-137: discharge the caps of the supply pin and disconnect it. -/
def dischargeSupply : List Event :=
  [Event.dc { port := "", id := "", pin := "VDD_MRAM0_WL", badc := false,
              ops := [DcOp.vForce 0], filtered := false },
   Event.dc { port := "", id := "", pin := "VDD_MRAM0_WL", badc := false,
              ops := [DcOp.disconnect], filtered := false }]

/-- Lines 95-199: the measurement branch. Where the source has one chain for an empty `_port`
and the same chain behind `rdi.port(_port)` otherwise (BADC, current mode), the command carries
`port := _port`. `V` scales by 1; `rdi.wait(5 ms)` is `waitMs 5`. -/
def measurementBranch (env : Env) (tm : DCMeasurement) : List Event :=
  if tm._measure = "VOLT" then
    [Event.limitGet] ++
    (if tm._badc ≠ 0 then
      [Event.dc { port := tm._port, id := tm.suiteName, pin := tm._pin, badc := true,
                  ops := [DcOp.measWait tm._settlingTime, DcOp.vMeas], filtered := false }]
    else if tm._port = "" then
      [Event.getPinType tm._pin] ++
      (if env.getPinType tm._pin = "DCS-DPS128HC" ∨ env.getPinType tm._pin = "DCS-DPS128HV" then
        dischargeSupply ++
        [Event.dc { port := "", id := tm.suiteName, pin := "VDD_MRAM0_WL", badc := false,
                    ops := [DcOp.iForce tm._forceValue, DcOp.measWait tm._settlingTime,
                            DcOp.vMeas],
                    filtered := false },
         Event.cout "Measure VDD_MRAM0_WL using DPS"]
      else if env.getPinType tm._pin = "PS1600" then
        (if tm._pin = "VDD_MRAM0_WL_CH" then
          dischargeSupply ++ [Event.cout "Measure VDD_MRAM0_WL using PPMU on IO"]
        else []) ++
        [Event.waitMs 5,
         Event.dc { port := "", id := tm.suiteName, pin := tm._pin, badc := false,
                    ops := [DcOp.clamp tm._clampLo tm._clampHi, DcOp.iForce tm._forceValue,
                            DcOp.vRange 4, DcOp.measWait tm._settlingTime,
                            DcOp.relay Relay.ppmuRly_onPPMU_offACDC Relay.ppmuRly_onAC_offDCPPMU,
                            DcOp.vMeas],
                    filtered := true }] ++
        (if tm._pin = "VDD_MRAM0_WL_CH" then
          [Event.dc { port := "", id := "", pin := "VDD_MRAM0_WL", badc := false,
                      ops := [DcOp.connect], filtered := false }]
        else [])
      else [])
    else
      [Event.dc { port := tm._port, id := tm.suiteName, pin := tm._pin, badc := false,
                  ops := [DcOp.clamp tm._clampLo tm._clampHi, DcOp.iForce tm._forceValue,
                          DcOp.measWait tm._settlingTime,
                          DcOp.relay Relay.ppmuRly_onPPMU_offACDC Relay.ppmuRly_onAC_offDCPPMU,
                          DcOp.vMeas],
                  filtered := true }])
  else
    [Event.dc { port := tm._port, id := tm.suiteName, pin := tm._pin, badc := false,
                ops := [DcOp.vForce tm._forceValue,
                        DcOp.relay Relay.ppmuRly_onPPMU_offACDC Relay.ppmuRly_onAC_offDCPPMU,
                        DcOp.measWait tm._settlingTime, DcOp.iRange tm._iRange, DcOp.iMeas],
                filtered := true }]

/-- Lines 201-207: the shutdown burst after the measurement. -/
def postBurst (tm : DCMeasurement) : List Event :=
  if tm._applyShutdown ≠ 0 then
    if tm._port = "" then [Event.funcLabel (tm.suiteName ++ "f2") tm._shutdownPattern]
    else [Event.funcBurst tm._port (tm.suiteName ++ "f2") tm._shutdownPattern]
  else []

/-- Lines 221-229: the value stored for a site when running offline. Line 222,
`((dHigh - dLow) / 2) + dLow`, is three operations on `double`, each rounded. -/
def offlineValue (l : Limits) : Double :=
  if l.cLow ≠ COMPARE.NA ∧ l.cHigh ≠ COMPARE.NA then
    Double.add (Double.half (Double.sub (Double.finite l.dHigh) (Double.finite l.dLow)))
      (Double.finite l.dLow)
  else if l.cLow ≠ COMPARE.NA then Double.finite l.dLow
  else if l.cHigh ≠ COMPARE.NA then Double.finite l.dHigh
  else Double.finite 0

/-- A pass/fail flag stored in a vector of `int`. -/
def passFailToInt (b : Bool) : Int := if b then 1 else 0

/-- Lines 212-233: the body of the per-site loop, members after the body. -/
def siteBodyMembers (env : Env) (tm : DCMeasurement) (site : Nat) : DCMeasurement :=
  let tm := { tm with funcResultsPre :=
    tm.funcResultsPre.set site (passFailToInt (env.getPassFail (tm.suiteName ++ "f1") site)) }
  let tm := if tm._applyShutdown ≠ 0 then
      { tm with funcResultsPost :=
        tm.funcResultsPost.set site (passFailToInt (env.getPassFail (tm.suiteName ++ "f2") site)) }
    else tm
  if env.offline then { tm with results := tm.results.set site (offlineValue env.limits) }
  else { tm with results := tm.results.set site (env.getValue tm.suiteName site) }

/-- Lines 212-233: the body of the per-site loop, calls it makes. -/
def siteBodyEvents (env : Env) (tm : DCMeasurement) (site : Nat) : List Event :=
  [Event.getPassFail (tm.suiteName ++ "f1") site] ++
  (if tm._applyShutdown ≠ 0 then [Event.getPassFail (tm.suiteName ++ "f2") site] else []) ++
  (if env.offline then [Event.limitGet] else [Event.getValue tm.suiteName site])

/-- Lines 211-235: `FOR_EACH_SITE_BEGIN() ... FOR_EACH_SITE_END()`. -/
def forEachSite (env : Env) : List Nat → DCMeasurement → DCMeasurement × List Event
  | [], tm => (tm, [])
  | site :: rest, tm =>
    ((forEachSite env rest (siteBodyMembers env tm site)).1,
     siteBodyEvents env tm site ++ (forEachSite env rest (siteBodyMembers env tm site)).2)

/-- Lines 85-209: the command sequence between `RDI_BEGIN` and `RDI_END`. -/
def rdiBlock (env : Env) (tm : DCMeasurement) : List Event :=
  [Event.rdiBegin] ++ preBurst tm ++ [Event.callHoldState] ++ measurementBranch env tm ++
    postBurst tm ++ [Event.rdiEnd]

/-- The method `_execute` (lines 48-238). -/
def _execute (env : Env) (tm : DCMeasurement) : Outcome :=
  match resolveRange env (resolveShutdownPattern tm) with
  | Outcome.errorExit code tm1 log => Outcome.errorExit code tm1 log
  | Outcome.completed tm1 log =>
    Outcome.completed (forEachSite env env.activeSites tm1).1
      (log ++ rdiBlock env tm1 ++ (forEachSite env env.activeSites tm1).2)

/-- Members at the end of a run. -/
def Outcome.members : Outcome → DCMeasurement
  | Outcome.completed tm _ => tm
  | Outcome.errorExit _ tm _ => tm

/-- Events issued by a run. -/
def Outcome.log : Outcome → List Event
  | Outcome.completed _ log => log
  | Outcome.errorExit _ _ log => log

/-- Whether the run reached the end of the block. -/
def Outcome.isCompleted : Outcome → Bool
  | Outcome.completed _ _ => true
  | Outcome.errorExit _ _ _ => false

/-- The low bound as the auto-ranger sees it: the bound when applicable, 0 when it is NA. -/
def effectiveLow (l : Limits) : ℚ := if l.cLow = COMPARE.NA then 0 else l.dLow

/-- The high bound as the auto-ranger sees it: the bound when applicable, 0 when it is NA. -/
def effectiveHigh (l : Limits) : ℚ := if l.cHigh = COMPARE.NA then 0 else l.dHigh

/-- An environment for concrete runs: every functional burst passes, the instrument reads
`reading`, the hooks of the base class change nothing, four physical sites. -/
def sampleEnv (limits : Limits) (offline : Bool) (sites : List Nat) (pinType : String)
    (reading : ℚ) : Env :=
  { limits := limits, offline := offline, activeSites := sites,
    getPinType := fun _ => pinType, getPassFail := fun _ _ => true,
    getValue := fun _ _ => Double.finite reading, invertFunctionalResultIfRequired := fun v => v,
    filterResult := fun v => v, testName := "dc_meas", numberOfPhysicalSites := 4,
    extractPinsFromGroup := fun p => p, primaryLabel := "TEST_A" }

/-- A test method after construction and `_setup`, measuring pin `PIN_A` in suite `suite_a`. -/
def sampleMethod (env : Env) : DCMeasurement :=
  _setup env { (DCMeasurement.new.pin "PIN_A") with suiteName := "suite_a" }

/-! ## Judging (lines 240-262) -/

/-- A value handed to a judge call, tagged with the vector it was read from. -/
inductive Judged
  | funcPre (v : Int)
  | measured (v : Double)
  | funcPost (v : Int)
  deriving DecidableEq

/-- Calls made by `serialProcessing` and `SMC_backgroundProcessing`. The hook `process(site)`
is defined outside the file and is recorded as a call of its own. -/
inductive JudgeEvent
  | process (site : Nat)
  | judgeAndDatalog (name : String) (v : Judged)
  | SMC_TEST (site : Nat) (pin suite : String) (limit : Limits) (v : Judged)
  deriving DecidableEq

/-- The judge / datalog calls among the events (the `process` hook is not one). -/
def JudgeEvent.isJudgeCall : JudgeEvent → Bool
  | .process _ => false
  | .judgeAndDatalog _ _ => true
  | .SMC_TEST _ _ _ _ _ => true

/-- The judge calls that forward a functional-post result. -/
def JudgeEvent.forwardsFuncPost : JudgeEvent → Bool
  | .judgeAndDatalog _ (Judged.funcPost _) => true
  | .SMC_TEST _ _ _ _ (Judged.funcPost _) => true
  | _ => false

/-- The judge calls that forward a functional-pre result. -/
def JudgeEvent.forwardsFuncPre : JudgeEvent → Bool
  | .judgeAndDatalog _ (Judged.funcPre _) => true
  | .SMC_TEST _ _ _ _ (Judged.funcPre _) => true
  | _ => false

/-- The judge calls that forward a measured value. -/
def JudgeEvent.forwardsMeasured : JudgeEvent → Bool
  | .judgeAndDatalog _ (Judged.measured _) => true
  | .SMC_TEST _ _ _ _ (Judged.measured _) => true
  | _ => false

/-- The fixed pass range `LIMIT(TM::GE, 1, TM::LE, 1)`. -/
def passRange : Limits := ⟨COMPARE.GE, 1, COMPARE.LE, 1⟩

/-- The method `serialProcessing` (lines 240-250). Reading a vector at `site` is `getD site`
with the zero of the element type. -/
def serialProcessing (env : Env) (tm : DCMeasurement) (site : Nat) : List JudgeEvent :=
  if tm._processResults ≠ 0 then
    [JudgeEvent.judgeAndDatalog (env.testName ++ "_FUNCPRE")
       (Judged.funcPre (env.invertFunctionalResultIfRequired (tm.funcResultsPre.getD site 0))),
     JudgeEvent.judgeAndDatalog env.testName
       (Judged.measured (env.filterResult (tm.results.getD site (Double.finite 0))))] ++
    (if tm._applyShutdown ≠ 0 ∧ tm._checkShutdown ≠ 0 then
      [JudgeEvent.judgeAndDatalog (env.testName ++ "_FUNCPOST")
         (Judged.funcPost (env.invertFunctionalResultIfRequired (tm.funcResultsPost.getD site 0)))]
    else [])
  else []

/-- Lines 254-260: the body of the loop of `SMC_backgroundProcessing` for one site. -/
def smcSite (env : Env) (tm : DCMeasurement) (site : Nat) : List JudgeEvent :=
  [JudgeEvent.process site] ++
  (if tm._processResults ≠ 0 then
    [JudgeEvent.SMC_TEST site "" tm.suiteName passRange
       (Judged.funcPre (tm.funcResultsPre.getD site 0))] ++
    (if tm._applyShutdown ≠ 0 ∧ tm._checkShutdown ≠ 0 then
      [JudgeEvent.SMC_TEST site "" tm.suiteName passRange
         (Judged.funcPost (tm.funcResultsPost.getD site 0))]
    else []) ++
    [JudgeEvent.SMC_TEST site tm._pin tm.suiteName env.limits
       (Judged.measured (env.filterResult (tm.results.getD site (Double.finite 0))))]
  else [])

/-- Lines 253-261: the loop of `SMC_backgroundProcessing` over the stored active sites. -/
def smcLoop (env : Env) (tm : DCMeasurement) : List Nat → List JudgeEvent
  | [] => []
  | site :: rest => smcSite env tm site ++ smcLoop env tm rest

/-- The method `SMC_backgroundProcessing` (lines 252-262). -/
def SMC_backgroundProcessing (env : Env) (tm : DCMeasurement) : List JudgeEvent :=
  smcLoop env tm env.activeSites

/-! ## Auxiliary definitions for the statements -/

/-- The value the per-site loop stores in `results[site]`. -/
def siteValue (env : Env) (suite : String) (site : Nat) : Double :=
  if env.offline then offlineValue env.limits else env.getValue suite site

/-- The run cannot resolve a range: current mode, range unset, both effective bounds 0. -/
def rangeUnresolvable (env : Env) (tm : DCMeasurement) : Prop :=
  tm._measure = "CURR" ∧ tm._iRange = 0 ∧
    effectiveLow env.limits = 0 ∧ effectiveHigh env.limits = 0

instance rangeUnresolvableDecidable (env : Env) (tm : DCMeasurement) :
    Decidable (rangeUnresolvable env tm) := by
  unfold rangeUnresolvable
  infer_instance

/-- The range in force after lines 62-83 when the run goes on. -/
def resolvedRange (env : Env) (tm : DCMeasurement) : ℚ :=
  if tm._iRange = 0 ∧ tm._measure = "CURR" then
    max (abs (effectiveLow env.limits)) (abs (effectiveHigh env.limits))
  else tm._iRange

/-- The members after lines 54-83 when the run goes on. -/
def resolvedMembers (env : Env) (tm : DCMeasurement) : DCMeasurement :=
  { resolveShutdownPattern tm with _iRange := resolvedRange env tm }

/-- The calls made by lines 62-83 when the run goes on. -/
def rangeEvents (tm : DCMeasurement) : List Event :=
  if tm._iRange = 0 ∧ tm._measure = "CURR" then [Event.limitGet] else []

/-! ## Lemmas on the per-site loop -/

theorem siteBodyMembers_results (env : Env) (tm : DCMeasurement) (site : Nat) :
    (siteBodyMembers env tm site).results = tm.results.set site (siteValue env tm.suiteName site) := by
  simp only [siteBodyMembers, siteValue]
  split_ifs <;> rfl

theorem forEachSite_preserves {β : Type} (f : DCMeasurement → β)
    (hf : ∀ (env : Env) (tm : DCMeasurement) (site : Nat), f (siteBodyMembers env tm site) = f tm)
    (env : Env) (sites : List Nat) (tm : DCMeasurement) :
    f (forEachSite env sites tm).1 = f tm := by
  induction sites generalizing tm with
  | nil => rfl
  | cons site rest ih =>
    show f (forEachSite env rest (siteBodyMembers env tm site)).1 = f tm
    rw [ih, hf]

theorem forEachSite_suiteName (env : Env) (sites : List Nat) (tm : DCMeasurement) :
    (forEachSite env sites tm).1.suiteName = tm.suiteName :=
  forEachSite_preserves (fun t => t.suiteName)
    (by intro env tm site; simp only [siteBodyMembers]; split_ifs <;> rfl) env sites tm

theorem forEachSite_iRange (env : Env) (sites : List Nat) (tm : DCMeasurement) :
    (forEachSite env sites tm).1._iRange = tm._iRange :=
  forEachSite_preserves (fun t => t._iRange)
    (by intro env tm site; simp only [siteBodyMembers]; split_ifs <;> rfl) env sites tm

theorem forEachSite_shutdownPattern (env : Env) (sites : List Nat) (tm : DCMeasurement) :
    (forEachSite env sites tm).1._shutdownPattern = tm._shutdownPattern :=
  forEachSite_preserves (fun t => t._shutdownPattern)
    (by intro env tm site; simp only [siteBodyMembers]; split_ifs <;> rfl) env sites tm

theorem forEachSite_flags (env : Env) (sites : List Nat) (tm : DCMeasurement) :
    (forEachSite env sites tm).1._processResults = tm._processResults ∧
    (forEachSite env sites tm).1._applyShutdown = tm._applyShutdown ∧
    (forEachSite env sites tm).1._checkShutdown = tm._checkShutdown :=
  ⟨forEachSite_preserves (fun t => t._processResults)
      (by intro env tm site; simp only [siteBodyMembers]; split_ifs <;> rfl) env sites tm,
   forEachSite_preserves (fun t => t._applyShutdown)
      (by intro env tm site; simp only [siteBodyMembers]; split_ifs <;> rfl) env sites tm,
   forEachSite_preserves (fun t => t._checkShutdown)
      (by intro env tm site; simp only [siteBodyMembers]; split_ifs <;> rfl) env sites tm⟩

theorem forEachSite_results_length (env : Env) (sites : List Nat) (tm : DCMeasurement) :
    (forEachSite env sites tm).1.results.length = tm.results.length := by
  induction sites generalizing tm with
  | nil => rfl
  | cons site rest ih =>
    show (forEachSite env rest (siteBodyMembers env tm site)).1.results.length = _
    rw [ih, siteBodyMembers_results, List.length_set]

/-- Entries of sites that the loop does not visit keep their value. -/
theorem forEachSite_results_not_mem (env : Env) (sites : List Nat) (tm : DCMeasurement) (i : Nat)
    (hi : i ∉ sites) : (forEachSite env sites tm).1.results[i]? = tm.results[i]? := by
  induction sites generalizing tm with
  | nil => rfl
  | cons site rest ih =>
    have h1 : site ≠ i := fun h => hi (by simp [h])
    have h2 : i ∉ rest := fun h => hi (by simp [h])
    show (forEachSite env rest (siteBodyMembers env tm site)).1.results[i]? = _
    rw [ih _ h2, siteBodyMembers_results, List.getElem?_set_ne h1]

/-- Every visited site within the vector ends up holding `siteValue`. -/
theorem forEachSite_results_mem (env : Env) (sites : List Nat) (tm : DCMeasurement) (i : Nat)
    (hi : i ∈ sites) (hlt : i < tm.results.length) :
    (forEachSite env sites tm).1.results[i]? = some (siteValue env tm.suiteName i) := by
  induction sites generalizing tm with
  | nil => simp at hi
  | cons site rest ih =>
    show (forEachSite env rest (siteBodyMembers env tm site)).1.results[i]? = _
    have hname : (siteBodyMembers env tm site).suiteName = tm.suiteName := by
      simp only [siteBodyMembers]; split_ifs <;> rfl
    have hlen : i < (siteBodyMembers env tm site).results.length := by
      rw [siteBodyMembers_results, List.length_set]; exact hlt
    by_cases hmem : i ∈ rest
    · rw [ih _ hmem hlen, hname]
    · have hs : i = site := by
        rcases List.mem_cons.mp hi with h | h
        · exact h
        · exact absurd h hmem
      subst hs
      rw [forEachSite_results_not_mem env rest _ i hmem, siteBodyMembers_results,
        List.getElem?_set_self hlt]

theorem siteBodyEvents_limitFetches (env : Env) (tm : DCMeasurement) (site : Nat) :
    limitFetches (siteBodyEvents env tm site) = if env.offline then 1 else 0 := by
  unfold siteBodyEvents limitFetches
  split_ifs <;> simp

/-- The per-site loop asks the limit provider once per site offline, and never online. -/
theorem forEachSite_limitFetches (env : Env) (sites : List Nat) (tm : DCMeasurement) :
    limitFetches (forEachSite env sites tm).2 = if env.offline then sites.length else 0 := by
  induction sites generalizing tm with
  | nil => simp [forEachSite, limitFetches]
  | cons site rest ih =>
    show limitFetches (siteBodyEvents env tm site ++
      (forEachSite env rest (siteBodyMembers env tm site)).2) = _
    have h1 := siteBodyEvents_limitFetches env tm site
    have h2 := ih (siteBodyMembers env tm site)
    unfold limitFetches at h1 h2 ⊢
    rw [List.count_append, h1, h2]
    split_ifs
    · simp; omega
    · simp

/-- The per-site loop issues no dc command and no wait. -/
theorem forEachSite_no_dc (env : Env) (sites : List Nat) (tm : DCMeasurement) :
    ∀ e ∈ (forEachSite env sites tm).2, e.isDcOrWait = false := by
  induction sites generalizing tm with
  | nil => intro e he; simp [forEachSite] at he
  | cons site rest ih =>
    intro e he
    have he2 : e ∈ siteBodyEvents env tm site ++
        (forEachSite env rest (siteBodyMembers env tm site)).2 := he
    rcases List.mem_append.mp he2 with h | h
    · unfold siteBodyEvents at h
      split_ifs at h <;> simp at h <;>
        first
        | (rcases h with h | h | h <;> subst h <;> rfl)
        | (rcases h with h | h <;> subst h <;> rfl)
    · exact ih _ e h

/-! ## Lemmas on the stages of `_execute` -/

theorem resolveShutdownPattern_eq (tm : DCMeasurement) :
    resolveShutdownPattern tm =
      { tm with _shutdownPattern :=
          if tm._applyShutdown ≠ 0 ∧ tm._shutdownPattern = "" then tm.label ++ "_part1"
          else tm._shutdownPattern } := by
  cases tm
  unfold resolveShutdownPattern DCMeasurement.shutdownPattern
  split_ifs <;> simp_all

/-- The range resolver touches no member other than `_iRange`. -/
theorem resolveRange_members (env : Env) (tm : DCMeasurement) :
    (resolveRange env tm).members =
      { tm with _iRange := (resolveRange env tm).members._iRange } := by
  simp only [resolveRange]
  split_ifs <;> rfl

/-- The run as a whole, when the range resolver completes. -/
theorem execute_of_resolveRange_completed (env : Env) (tm tm1 : DCMeasurement) (log : List Event)
    (h : resolveRange env (resolveShutdownPattern tm) = Outcome.completed tm1 log) :
    _execute env tm = Outcome.completed (forEachSite env env.activeSites tm1).1
      (log ++ rdiBlock env tm1 ++ (forEachSite env env.activeSites tm1).2) := by
  simp only [_execute, h]

/-- The run as a whole, when the range resolver leaves through `ERROR_EXIT`. -/
theorem execute_of_resolveRange_errorExit (env : Env) (tm tm1 : DCMeasurement) (code : ExitCode)
    (log : List Event)
    (h : resolveRange env (resolveShutdownPattern tm) = Outcome.errorExit code tm1 log) :
    _execute env tm = Outcome.errorExit code tm1 log := by
  simp only [_execute, h]

/-- Outside current mode with an unset range the resolver does nothing. -/
theorem resolveRange_skip (env : Env) (tm : DCMeasurement)
    (h : ¬ (tm._iRange = 0 ∧ tm._measure = "CURR")) :
    resolveRange env tm = Outcome.completed tm [] := by
  simp only [resolveRange, if_neg h]

/-- In current mode with an unset range and a non-zero effective bound the resolver completes
with the larger magnitude, after one call to the limit provider. -/
theorem resolveRange_resolved (env : Env) (tm : DCMeasurement)
    (hr : tm._iRange = 0) (hm : tm._measure = "CURR")
    (hne : ¬ (effectiveLow env.limits = 0 ∧ effectiveHigh env.limits = 0)) :
    resolveRange env tm =
      Outcome.completed
        { tm with _iRange := max (abs (effectiveLow env.limits)) (abs (effectiveHigh env.limits)) }
        [Event.limitGet] := by
  have hne1 := hne
  unfold effectiveLow effectiveHigh at hne1
  by_cases h : abs (effectiveLow env.limits) > abs (effectiveHigh env.limits)
  · have h1 := h
    unfold effectiveLow effectiveHigh at h1
    simp only [resolveRange, if_pos (And.intro hr hm), if_neg hne1, if_pos h1]
    rw [max_eq_left (le_of_lt h)]
    rfl
  · have h1 := h
    unfold effectiveLow effectiveHigh at h1
    simp only [resolveRange, if_pos (And.intro hr hm), if_neg hne1, if_neg h1]
    rw [max_eq_right (not_lt.mp h)]
    rfl

/-- In current mode with an unset range and both effective bounds 0 the resolver leaves
through `ERROR_EXIT(TM::ABORT_FLOW)`. -/
theorem resolveRange_abort (env : Env) (tm : DCMeasurement)
    (hr : tm._iRange = 0) (hm : tm._measure = "CURR")
    (hz : effectiveLow env.limits = 0 ∧ effectiveHigh env.limits = 0) :
    resolveRange env tm =
      Outcome.errorExit ExitCode.ABORT_FLOW tm [Event.limitGet, Event.cout rangeErrorMessage] := by
  unfold effectiveLow effectiveHigh at hz
  simp only [resolveRange, if_pos (And.intro hr hm), if_pos hz]

/-- The shutdown pattern at the end of a run is the one left by lines 54-60. -/
theorem execute_shutdownPattern (env : Env) (tm : DCMeasurement) :
    (_execute env tm).members._shutdownPattern = (resolveShutdownPattern tm)._shutdownPattern := by
  have hm := resolveRange_members env (resolveShutdownPattern tm)
  cases h : resolveRange env (resolveShutdownPattern tm) with
  | completed tm1 log =>
    rw [execute_of_resolveRange_completed env tm tm1 log h]
    rw [h] at hm
    show (forEachSite env env.activeSites tm1).1._shutdownPattern = _
    rw [forEachSite_shutdownPattern]
    have h2 : tm1 = { resolveShutdownPattern tm with _iRange := tm1._iRange } := hm
    rw [h2]
  | errorExit code tm1 log =>
    rw [execute_of_resolveRange_errorExit env tm tm1 code log h]
    rw [h] at hm
    have h2 : tm1 = { resolveShutdownPattern tm with _iRange := tm1._iRange } := hm
    show tm1._shutdownPattern = _
    rw [h2]

/-- The whole run, when a range can be resolved or none is needed. -/
theorem execute_eq_of_resolvable (env : Env) (tm : DCMeasurement)
    (h : ¬ rangeUnresolvable env tm) :
    _execute env tm =
      Outcome.completed (forEachSite env env.activeSites (resolvedMembers env tm)).1
        (rangeEvents tm ++ rdiBlock env (resolvedMembers env tm) ++
          (forEachSite env env.activeSites (resolvedMembers env tm)).2) := by
  have hi : (resolveShutdownPattern tm)._iRange = tm._iRange := by
    rw [resolveShutdownPattern_eq]
  have hme : (resolveShutdownPattern tm)._measure = tm._measure := by
    rw [resolveShutdownPattern_eq]
  by_cases hc : tm._iRange = 0 ∧ tm._measure = "CURR"
  · have hne : ¬ (effectiveLow env.limits = 0 ∧ effectiveHigh env.limits = 0) :=
      fun hz => h ⟨hc.2, hc.1, hz.1, hz.2⟩
    rw [execute_of_resolveRange_completed env tm _ _
      (resolveRange_resolved env _ (hi.trans hc.1) (hme.trans hc.2) hne)]
    simp only [resolvedMembers, resolvedRange, rangeEvents, if_pos hc]
  · have hc1 : ¬ ((resolveShutdownPattern tm)._iRange = 0 ∧
        (resolveShutdownPattern tm)._measure = "CURR") := by
      rw [hi, hme]; exact hc
    have hrr : resolvedRange env tm = (resolveShutdownPattern tm)._iRange := by
      simp only [resolvedRange, if_neg hc, hi]
    have hrm : resolvedMembers env tm = resolveShutdownPattern tm := by
      unfold resolvedMembers
      rw [hrr]
    have hev : rangeEvents tm = [] := by
      simp only [rangeEvents, if_neg hc]
    rw [execute_of_resolveRange_completed env tm _ _ (resolveRange_skip env _ hc1), hrm, hev]

/-- The whole run, when no range can be resolved. -/
theorem execute_eq_of_unresolvable (env : Env) (tm : DCMeasurement)
    (h : rangeUnresolvable env tm) :
    _execute env tm =
      Outcome.errorExit ExitCode.ABORT_FLOW (resolveShutdownPattern tm)
        [Event.limitGet, Event.cout rangeErrorMessage] := by
  have hi : (resolveShutdownPattern tm)._iRange = 0 := by
    rw [resolveShutdownPattern_eq]; exact h.2.1
  have hme : (resolveShutdownPattern tm)._measure = "CURR" := by
    rw [resolveShutdownPattern_eq]; exact h.1
  exact execute_of_resolveRange_errorExit env tm _ _ _
    (resolveRange_abort env _ hi hme h.2.2)

theorem resolvedMembers_results (env : Env) (tm : DCMeasurement) :
    (resolvedMembers env tm).results = tm.results := by
  unfold resolvedMembers
  rw [resolveShutdownPattern_eq]

theorem resolvedMembers_suiteName (env : Env) (tm : DCMeasurement) :
    (resolvedMembers env tm).suiteName = tm.suiteName := by
  unfold resolvedMembers
  rw [resolveShutdownPattern_eq]

theorem preBurst_no_dc (tm : DCMeasurement) : ∀ e ∈ preBurst tm, e.isDcOrWait = false := by
  intro e he
  unfold preBurst at he
  split_ifs at he <;> simp at he <;> subst he <;> rfl

theorem postBurst_no_dc (tm : DCMeasurement) : ∀ e ∈ postBurst tm, e.isDcOrWait = false := by
  intro e he
  unfold postBurst at he
  split_ifs at he <;> simp at he <;> subst he <;> rfl

/-- The measurement branch for a voltage measurement without BADC and without port on a pin
whose type is none of the three known ones: the limits are fetched, the pin type is asked
for, and nothing else happens. -/
theorem measurementBranch_unclassified (env : Env) (tm : DCMeasurement)
    (hm : tm._measure = "VOLT") (hb : tm._badc = 0) (hp : tm._port = "")
    (h1 : env.getPinType tm._pin ≠ "DCS-DPS128HC") (h2 : env.getPinType tm._pin ≠ "DCS-DPS128HV")
    (h3 : env.getPinType tm._pin ≠ "PS1600") :
    measurementBranch env tm = [Event.limitGet, Event.getPinType tm._pin] := by
  simp [measurementBranch, hm, hb, hp, h1, h2, h3]

/-- The measurement branch outside voltage mode: one current measurement under `_iRange`. -/
theorem measurementBranch_current (env : Env) (tm : DCMeasurement) (hm : tm._measure ≠ "VOLT") :
    measurementBranch env tm =
      [Event.dc { port := tm._port, id := tm.suiteName, pin := tm._pin, badc := false,
                  ops := [DcOp.vForce tm._forceValue,
                          DcOp.relay Relay.ppmuRly_onPPMU_offACDC Relay.ppmuRly_onAC_offDCPPMU,
                          DcOp.measWait tm._settlingTime, DcOp.iRange tm._iRange, DcOp.iMeas],
                  filtered := true }] := by
  simp only [measurementBranch, if_neg hm]

/-- Calls to the limit provider made by the measurement branch. -/
theorem measurementBranch_limitFetches (env : Env) (tm : DCMeasurement) :
    limitFetches (measurementBranch env tm) = if tm._measure = "VOLT" then 1 else 0 := by
  unfold measurementBranch limitFetches dischargeSupply
  split_ifs <;> simp

/-- Calls to the limit provider made between `RDI_BEGIN` and `RDI_END`. -/
theorem rdiBlock_limitFetches (env : Env) (tm : DCMeasurement) :
    limitFetches (rdiBlock env tm) = if tm._measure = "VOLT" then 1 else 0 := by
  have h := measurementBranch_limitFetches env tm
  unfold limitFetches at h ⊢
  unfold rdiBlock preBurst postBurst
  simp only [List.count_append, h]
  split_ifs <;> simp

/-- Between `RDI_BEGIN` and `RDI_END`, dc commands and waits come from the measurement branch
only. -/
theorem rdiBlock_mem_dc (env : Env) (tm : DCMeasurement) (e : Event)
    (he : e ∈ rdiBlock env tm) (hd : e.isDcOrWait = true) : e ∈ measurementBranch env tm := by
  unfold rdiBlock at he
  simp only [List.mem_append, List.mem_singleton] at he
  rcases he with ((((he | he) | he) | he) | he) | he
  · subst he; exact absurd hd (by decide)
  · rw [preBurst_no_dc tm e he] at hd; exact absurd hd (by decide)
  · subst he; exact absurd hd (by decide)
  · exact he
  · rw [postBurst_no_dc tm e he] at hd; exact absurd hd (by decide)
  · subst he; exact absurd hd (by decide)

/-- In a completed run, dc commands and waits come from the measurement branch only. -/
theorem completed_log_mem_dc (env : Env) (tm : DCMeasurement) (e : Event)
    (he : e ∈ rangeEvents tm ++ rdiBlock env (resolvedMembers env tm) ++
      (forEachSite env env.activeSites (resolvedMembers env tm)).2)
    (hd : e.isDcOrWait = true) : e ∈ measurementBranch env (resolvedMembers env tm) := by
  simp only [List.mem_append] at he
  rcases he with (he | he) | he
  · unfold rangeEvents at he
    split_ifs at he
    · simp only [List.mem_singleton] at he
      subst he; exact absurd hd (by decide)
    · simp at he
  · exact rdiBlock_mem_dc env _ e he hd
  · rw [forEachSite_no_dc env _ _ e he] at hd; exact absurd hd (by decide)

/-! ## Lemmas on `double` arithmetic and the offline value -/

/-- Known facts of binary64 that `Double.round` reproduces: the double nearest to 0.1; ties go
to the even significand; the largest finite double is `2 ^ 1024 - 2 ^ 971` and the midpoint
above it already rounds to infinity; the smallest positive double is `2 ^ (-1074)` and half of
it rounds to 0; rounding is symmetric in the sign. -/
theorem Double.round_examples :
    Double.round (1 / 10) = Double.finite (3602879701896397 / 36028797018963968) ∧
    Double.round (mkRat (2 ^ 53 + 1) (2 ^ 53)) = Double.finite 1 ∧
    Double.round (mkRat (2 ^ 53 + 3) (2 ^ 53)) = Double.finite (mkRat (2 ^ 51 + 1) (2 ^ 51)) ∧
    Double.round ((2 ^ 1024 - 2 ^ 971 : Nat) : ℚ)
      = Double.finite ((2 ^ 1024 - 2 ^ 971 : Nat) : ℚ) ∧
    Double.round ((2 ^ 1024 - 2 ^ 970 : Nat) : ℚ) = Double.inf false ∧
    Double.round (-((2 ^ 1024 : Nat) : ℚ)) = Double.inf true ∧
    Double.round (mkRat 1 (2 ^ 1074)) = Double.finite (mkRat 1 (2 ^ 1074)) ∧
    Double.round (mkRat 1 (2 ^ 1075)) = Double.finite 0 ∧
    Double.round (mkRat 3 (2 ^ 1075)) = Double.finite (mkRat 1 (2 ^ 1073)) ∧
    Double.round (-(1 / 10)) = Double.finite (-(3602879701896397 / 36028797018963968)) := by
  refine ⟨by decide!, by decide!, by decide!, by decide!, by decide!, by decide!, by decide!,
    by decide!, by decide!, by decide!⟩

/-- The offline value, case by case. With both bounds applicable it is line 222 in `double`
arithmetic, which is the exact `(dHigh - dLow) / 2 + dLow` whenever none of the three
operations has to round. -/
theorem offlineValue_cases (l : Limits) :
    (l.cLow ≠ COMPARE.NA ∧ l.cHigh ≠ COMPARE.NA →
      offlineValue l =
          Double.add (Double.half (Double.sub (Double.finite l.dHigh) (Double.finite l.dLow)))
            (Double.finite l.dLow) ∧
      (Double.round (l.dHigh - l.dLow) = Double.finite (l.dHigh - l.dLow) →
        Double.round ((l.dHigh - l.dLow) / 2) = Double.finite ((l.dHigh - l.dLow) / 2) →
        Double.round ((l.dHigh - l.dLow) / 2 + l.dLow)
          = Double.finite ((l.dHigh - l.dLow) / 2 + l.dLow) →
        offlineValue l = Double.finite ((l.dHigh - l.dLow) / 2 + l.dLow))) ∧
    (l.cLow ≠ COMPARE.NA ∧ l.cHigh = COMPARE.NA → offlineValue l = Double.finite l.dLow) ∧
    (l.cLow = COMPARE.NA ∧ l.cHigh ≠ COMPARE.NA → offlineValue l = Double.finite l.dHigh) ∧
    (l.cLow = COMPARE.NA ∧ l.cHigh = COMPARE.NA → offlineValue l = Double.finite 0) := by
  refine ⟨?_, ?_, ?_, ?_⟩
  · rintro ⟨h1, h2⟩
    constructor
    · simp only [offlineValue, if_pos (And.intro h1 h2)]
    · intro e1 e2 e3
      simp only [offlineValue, if_pos (And.intro h1 h2), Double.sub, e1, Double.half, e2,
        Double.add, e3]
  · rintro ⟨h1, h2⟩
    have h3 : ¬ (l.cLow ≠ COMPARE.NA ∧ l.cHigh ≠ COMPARE.NA) := fun h => h.2 h2
    simp only [offlineValue, if_neg h3, if_pos h1]
  · rintro ⟨h1, h2⟩
    have h3 : ¬ (l.cLow ≠ COMPARE.NA ∧ l.cHigh ≠ COMPARE.NA) := fun h => h.1 h1
    have h4 : ¬ (l.cLow ≠ COMPARE.NA) := fun h => h h1
    simp only [offlineValue, if_neg h3, if_neg h4, if_pos h2]
  · rintro ⟨h1, h2⟩
    have h3 : ¬ (l.cLow ≠ COMPARE.NA ∧ l.cHigh ≠ COMPARE.NA) := fun h => h.1 h1
    have h4 : ¬ (l.cLow ≠ COMPARE.NA) := fun h => h h1
    have h5 : ¬ (l.cHigh ≠ COMPARE.NA) := fun h => h h2
    simp only [offlineValue, if_neg h3, if_neg h4, if_neg h5]

/-! ## The claims -/

/-- C5: at the end of a run of `_execute` the shutdown pattern is the label followed by
`_part1` when apply-shutdown is set and the supplied pattern is empty, and is the supplied
pattern in every other case; with label `TEST_A` the derived pattern is `TEST_A_part1`. -/
theorem shutdown_pattern_derivation (env : Env) (tm : DCMeasurement) :
    (_execute env tm).members._shutdownPattern =
        (if tm._applyShutdown ≠ 0 ∧ tm._shutdownPattern = "" then tm.label ++ "_part1"
         else tm._shutdownPattern) ∧
    (_execute env { tm with _applyShutdown := 1, _shutdownPattern := "", label := "TEST_A" }
      ).members._shutdownPattern = "TEST_A_part1" := by
  constructor
  · rw [execute_shutdownPattern, resolveShutdownPattern_eq]
  · rw [execute_shutdownPattern, resolveShutdownPattern_eq]
    show (if (1 : Int) ≠ 0 ∧ ("" : String) = "" then "TEST_A" ++ "_part1" else "")
      = "TEST_A_part1"
    decide

/-- C1, as stated, fails: with the low bound applicable and equal to 0 and the high bound NA,
in current mode with an unset range, the run leaves through `ERROR_EXIT`. -/
theorem auto_range_zero_bound_aborts :
    ((sampleEnv ⟨COMPARE.GE, 0, COMPARE.NA, 0⟩ true [1, 2, 3, 4] "PS1600" 0).limits.cLow
        ≠ COMPARE.NA) ∧
    ((sampleMethod (sampleEnv ⟨COMPARE.GE, 0, COMPARE.NA, 0⟩ true [1, 2, 3, 4] "PS1600" 0)).measure
        "CURR")._measure = "CURR" ∧
    ((sampleMethod (sampleEnv ⟨COMPARE.GE, 0, COMPARE.NA, 0⟩ true [1, 2, 3, 4] "PS1600" 0)).measure
        "CURR")._iRange = 0 ∧
    (_execute (sampleEnv ⟨COMPARE.GE, 0, COMPARE.NA, 0⟩ true [1, 2, 3, 4] "PS1600" 0)
        ((sampleMethod (sampleEnv ⟨COMPARE.GE, 0, COMPARE.NA, 0⟩ true [1, 2, 3, 4] "PS1600" 0)).measure
          "CURR")).isCompleted = false := by
  refine ⟨by decide, by decide, by decide, by decide⟩

/-- C1, amended: in current mode with an unset range, whenever the effective bounds (the bound
when applicable, 0 when NA) are not both 0, the run of `_execute` completes and the resolved
range is `max |effectiveLow| |effectiveHigh|`. -/
theorem auto_range_resolves (env : Env) (tm : DCMeasurement)
    (hm : tm._measure = "CURR") (hr : tm._iRange = 0)
    (hne : effectiveLow env.limits ≠ 0 ∨ effectiveHigh env.limits ≠ 0) :
    ∃ tm1 log, _execute env tm = Outcome.completed tm1 log ∧
      tm1._iRange = max (abs (effectiveLow env.limits)) (abs (effectiveHigh env.limits)) := by
  have hr1 : (resolveShutdownPattern tm)._iRange = 0 := by
    rw [resolveShutdownPattern_eq]; exact hr
  have hm1 : (resolveShutdownPattern tm)._measure = "CURR" := by
    rw [resolveShutdownPattern_eq]; exact hm
  have hne1 : ¬ (effectiveLow env.limits = 0 ∧ effectiveHigh env.limits = 0) := by
    rintro ⟨h1, h2⟩
    rcases hne with h | h
    · exact h h1
    · exact h h2
  refine ⟨_, _, execute_of_resolveRange_completed env tm _ _
    (resolveRange_resolved env _ hr1 hm1 hne1), ?_⟩
  rw [forEachSite_iRange]

/-- C1, amended, at limits (low NA, high 2.5): the run completes with range 2.5. -/
theorem auto_range_resolves_witness :
    ∃ tm1 log,
      _execute (sampleEnv ⟨COMPARE.NA, 0, COMPARE.LE, 5 / 2⟩ true [1, 2, 3, 4] "PS1600" 0)
        ((sampleMethod (sampleEnv ⟨COMPARE.NA, 0, COMPARE.LE, 5 / 2⟩ true [1, 2, 3, 4] "PS1600"
          0)).measure "CURR") = Outcome.completed tm1 log ∧
      tm1._iRange = max
        (abs (effectiveLow
          (sampleEnv ⟨COMPARE.NA, 0, COMPARE.LE, 5 / 2⟩ true [1, 2, 3, 4] "PS1600" 0).limits))
        (abs (effectiveHigh
          (sampleEnv ⟨COMPARE.NA, 0, COMPARE.LE, 5 / 2⟩ true [1, 2, 3, 4] "PS1600" 0).limits)) :=
  auto_range_resolves (sampleEnv ⟨COMPARE.NA, 0, COMPARE.LE, 5 / 2⟩ true [1, 2, 3, 4] "PS1600" 0)
    ((sampleMethod (sampleEnv ⟨COMPARE.NA, 0, COMPARE.LE, 5 / 2⟩ true [1, 2, 3, 4] "PS1600"
      0)).measure "CURR")
    (by decide) (by decide) (Or.inr (by simp [effectiveHigh, sampleEnv]))

/-- C2: in current mode with an unset range and both bounds NA, the run of `_execute` leaves
through `ERROR_EXIT(TM::ABORT_FLOW)` having called only the limit provider and `cout` (no call
to the instrument interface), and `results`, `funcResultsPre` and `funcResultsPost` are the
vectors it started with. -/
theorem unresolvable_range_aborts (env : Env) (tm : DCMeasurement)
    (hm : tm._measure = "CURR") (hr : tm._iRange = 0)
    (hl : env.limits.cLow = COMPARE.NA) (hh : env.limits.cHigh = COMPARE.NA) :
    ∃ tm1 log, _execute env tm = Outcome.errorExit ExitCode.ABORT_FLOW tm1 log ∧
      log = [Event.limitGet, Event.cout rangeErrorMessage] ∧
      (∀ e ∈ log, e.isRdi = false) ∧
      tm1.results = tm.results ∧ tm1.funcResultsPre = tm.funcResultsPre ∧
      tm1.funcResultsPost = tm.funcResultsPost := by
  have hr1 : (resolveShutdownPattern tm)._iRange = 0 := by
    rw [resolveShutdownPattern_eq]; exact hr
  have hm1 : (resolveShutdownPattern tm)._measure = "CURR" := by
    rw [resolveShutdownPattern_eq]; exact hm
  have hz : effectiveLow env.limits = 0 ∧ effectiveHigh env.limits = 0 := by
    simp [effectiveLow, effectiveHigh, hl, hh]
  refine ⟨_, _, execute_of_resolveRange_errorExit env tm _ _ _
    (resolveRange_abort env _ hr1 hm1 hz), rfl, ?_, ?_, ?_, ?_⟩
  · intro e he
    simp at he
    rcases he with h | h <;> subst h <;> rfl
  · rw [resolveShutdownPattern_eq]
  · rw [resolveShutdownPattern_eq]
  · rw [resolveShutdownPattern_eq]

/-- C2 at a concrete current-mode method with both bounds NA. -/
theorem unresolvable_range_aborts_witness :
    ∃ tm1 log,
      _execute (sampleEnv ⟨COMPARE.NA, 0, COMPARE.NA, 0⟩ false [1, 2, 3, 4] "PS1600" 0)
        ((sampleMethod (sampleEnv ⟨COMPARE.NA, 0, COMPARE.NA, 0⟩ false [1, 2, 3, 4] "PS1600"
          0)).measure "CURR") = Outcome.errorExit ExitCode.ABORT_FLOW tm1 log ∧
      log = [Event.limitGet, Event.cout rangeErrorMessage] ∧
      (∀ e ∈ log, e.isRdi = false) ∧
      tm1.results = ((sampleMethod (sampleEnv ⟨COMPARE.NA, 0, COMPARE.NA, 0⟩ false [1, 2, 3, 4]
          "PS1600" 0)).measure "CURR").results ∧
      tm1.funcResultsPre = ((sampleMethod (sampleEnv ⟨COMPARE.NA, 0, COMPARE.NA, 0⟩ false
          [1, 2, 3, 4] "PS1600" 0)).measure "CURR").funcResultsPre ∧
      tm1.funcResultsPost = ((sampleMethod (sampleEnv ⟨COMPARE.NA, 0, COMPARE.NA, 0⟩ false
          [1, 2, 3, 4] "PS1600" 0)).measure "CURR").funcResultsPost :=
  unresolvable_range_aborts (sampleEnv ⟨COMPARE.NA, 0, COMPARE.NA, 0⟩ false [1, 2, 3, 4] "PS1600" 0)
    ((sampleMethod (sampleEnv ⟨COMPARE.NA, 0, COMPARE.NA, 0⟩ false [1, 2, 3, 4] "PS1600"
      0)).measure "CURR")
    (by decide) (by decide) (by decide) (by decide)

/-- C3, as stated, fails on two counts. First, in current mode with an unset range and both
bounds NA the run leaves through `ERROR_EXIT` before the per-site loop, so nothing is written:
`results[1]`, holding 7 from an earlier run, still holds 7 and not 0. Second, line 222 is
computed in `double`: in voltage mode, at the limits that are the doubles nearest to 0.1 and
0.7, the value stored in `results[1]` is `3602879701896397 / 2 ^ 53`, which is not the exact
`(highBound - lowBound) / 2 + lowBound`. -/
theorem offline_value_not_written_or_rounded :
    ((sampleEnv ⟨COMPARE.NA, 0, COMPARE.NA, 0⟩ true [1, 2, 3, 4] "PS1600" 0).offline = true ∧
      1 ∈ (sampleEnv ⟨COMPARE.NA, 0, COMPARE.NA, 0⟩ true [1, 2, 3, 4] "PS1600" 0).activeSites ∧
      (_execute (sampleEnv ⟨COMPARE.NA, 0, COMPARE.NA, 0⟩ true [1, 2, 3, 4] "PS1600" 0)
        { (sampleMethod (sampleEnv ⟨COMPARE.NA, 0, COMPARE.NA, 0⟩ true [1, 2, 3, 4] "PS1600"
            0)).measure "CURR" with
          results := [Double.finite 0, Double.finite 7, Double.finite 7, Double.finite 7,
            Double.finite 7] }).isCompleted = false ∧
      (_execute (sampleEnv ⟨COMPARE.NA, 0, COMPARE.NA, 0⟩ true [1, 2, 3, 4] "PS1600" 0)
        { (sampleMethod (sampleEnv ⟨COMPARE.NA, 0, COMPARE.NA, 0⟩ true [1, 2, 3, 4] "PS1600"
            0)).measure "CURR" with
          results := [Double.finite 0, Double.finite 7, Double.finite 7, Double.finite 7,
            Double.finite 7] }).members.results[1]? = some (Double.finite 7) ∧
      Double.finite 7 ≠ Double.finite 0) ∧
    (Double.round (3602879701896397 / 36028797018963968)
        = Double.finite (3602879701896397 / 36028797018963968) ∧
      Double.round (3152519739159347 / 4503599627370496)
        = Double.finite (3152519739159347 / 4503599627370496) ∧
      (_execute
        (sampleEnv ⟨COMPARE.GE, 3602879701896397 / 36028797018963968,
          COMPARE.LE, 3152519739159347 / 4503599627370496⟩ true [1, 2, 3, 4] "PS1600" 0)
        (sampleMethod (sampleEnv ⟨COMPARE.GE, 3602879701896397 / 36028797018963968,
          COMPARE.LE, 3152519739159347 / 4503599627370496⟩ true [1, 2, 3, 4] "PS1600" 0))
        ).members.results[1]? = some (Double.finite (3602879701896397 / 9007199254740992)) ∧
      Double.finite (3602879701896397 / 9007199254740992) ≠
        Double.finite ((3152519739159347 / 4503599627370496
            - 3602879701896397 / 36028797018963968) / 2
          + 3602879701896397 / 36028797018963968)) := by
  refine ⟨⟨by decide, by decide, by decide, by decide, by decide⟩,
    ⟨by decide!, by decide!, by decide!, by decide!⟩⟩

/-- C3, amended: offline, whenever the run of `_execute` reaches the per-site loop (it does
unless the range cannot be resolved), it completes and the value held by `results[site]` for
an active site is: with both bounds applicable, `((dHigh - dLow) / 2) + dLow` computed in
`double` arithmetic, which is the exact `(highBound - lowBound) / 2 + lowBound` whenever none
of the three operations rounds; the single applicable bound when exactly one is applicable;
and 0 when neither is. -/
theorem offline_measured_value (env : Env) (tm : DCMeasurement) (site : Nat)
    (hoff : env.offline = true) (hreach : ¬ rangeUnresolvable env tm)
    (hs : site ∈ env.activeSites) (hlt : site < tm.results.length) :
    ∃ tm1 log v, _execute env tm = Outcome.completed tm1 log ∧ tm1.results[site]? = some v ∧
      (env.limits.cLow ≠ COMPARE.NA ∧ env.limits.cHigh ≠ COMPARE.NA →
        v = Double.add
              (Double.half
                (Double.sub (Double.finite env.limits.dHigh) (Double.finite env.limits.dLow)))
              (Double.finite env.limits.dLow) ∧
        (Double.round (env.limits.dHigh - env.limits.dLow)
            = Double.finite (env.limits.dHigh - env.limits.dLow) →
          Double.round ((env.limits.dHigh - env.limits.dLow) / 2)
            = Double.finite ((env.limits.dHigh - env.limits.dLow) / 2) →
          Double.round ((env.limits.dHigh - env.limits.dLow) / 2 + env.limits.dLow)
            = Double.finite ((env.limits.dHigh - env.limits.dLow) / 2 + env.limits.dLow) →
          v = Double.finite ((env.limits.dHigh - env.limits.dLow) / 2 + env.limits.dLow))) ∧
      (env.limits.cLow ≠ COMPARE.NA ∧ env.limits.cHigh = COMPARE.NA →
        v = Double.finite env.limits.dLow) ∧
      (env.limits.cLow = COMPARE.NA ∧ env.limits.cHigh ≠ COMPARE.NA →
        v = Double.finite env.limits.dHigh) ∧
      (env.limits.cLow = COMPARE.NA ∧ env.limits.cHigh = COMPARE.NA → v = Double.finite 0) := by
  have hlt1 : site < (resolvedMembers env tm).results.length := by
    rw [resolvedMembers_results]; exact hlt
  refine ⟨_, _, offlineValue env.limits, execute_eq_of_resolvable env tm hreach, ?_,
    offlineValue_cases env.limits⟩
  rw [forEachSite_results_mem env env.activeSites _ site hs hlt1]
  simp only [siteValue, hoff, if_true]

/-- C3, amended, in voltage mode: at limits low = 1.0, high = 3.0 site 1 holds 2.0, and at
limits (low NA, high = 5.0) site 1 holds 5.0. -/
theorem offline_measured_value_witness :
    (∃ tm1 log,
      _execute (sampleEnv ⟨COMPARE.GE, 1, COMPARE.LE, 3⟩ true [1, 2, 3, 4] "PS1600" 0)
        (sampleMethod (sampleEnv ⟨COMPARE.GE, 1, COMPARE.LE, 3⟩ true [1, 2, 3, 4] "PS1600" 0))
        = Outcome.completed tm1 log ∧
      tm1.results[1]? = some (Double.finite 2)) ∧
    (∃ tm1 log,
      _execute (sampleEnv ⟨COMPARE.NA, 0, COMPARE.LE, 5⟩ true [1, 2, 3, 4] "PS1600" 0)
        (sampleMethod (sampleEnv ⟨COMPARE.NA, 0, COMPARE.LE, 5⟩ true [1, 2, 3, 4] "PS1600" 0))
        = Outcome.completed tm1 log ∧
      tm1.results[1]? = some (Double.finite 5)) := by
  constructor
  · obtain ⟨tm1, log, v, hrun, hv, hboth, _, _, _⟩ :=
      offline_measured_value
        (sampleEnv ⟨COMPARE.GE, 1, COMPARE.LE, 3⟩ true [1, 2, 3, 4] "PS1600" 0)
        (sampleMethod (sampleEnv ⟨COMPARE.GE, 1, COMPARE.LE, 3⟩ true [1, 2, 3, 4] "PS1600" 0))
        1 rfl (by decide) (by decide) (by decide)
    refine ⟨tm1, log, hrun, ?_⟩
    rw [hv, (hboth ⟨by decide, by decide⟩).1]
    decide!
  · obtain ⟨tm1, log, v, hrun, hv, _, _, hhigh, _⟩ :=
      offline_measured_value
        (sampleEnv ⟨COMPARE.NA, 0, COMPARE.LE, 5⟩ true [1, 2, 3, 4] "PS1600" 0)
        (sampleMethod (sampleEnv ⟨COMPARE.NA, 0, COMPARE.LE, 5⟩ true [1, 2, 3, 4] "PS1600" 0))
        1 rfl (by decide) (by decide) (by decide)
    refine ⟨tm1, log, hrun, ?_⟩
    rw [hv, hhigh ⟨by decide, by decide⟩]
    rfl

/-- C7, as stated, fails: online, a voltage measurement without BADC and without port on a
pin of unknown type overwrites `results[1]`, which held 0, with the instrument reading 7. -/
theorem unclassified_pin_overwrites_result :
    (sampleMethod (sampleEnv ⟨COMPARE.NA, 0, COMPARE.NA, 0⟩ false [1, 2, 3, 4] "OTHER" 7))._measure
        = "VOLT" ∧
    (sampleMethod (sampleEnv ⟨COMPARE.NA, 0, COMPARE.NA, 0⟩ false [1, 2, 3, 4] "OTHER" 7))._badc
        = 0 ∧
    (sampleMethod (sampleEnv ⟨COMPARE.NA, 0, COMPARE.NA, 0⟩ false [1, 2, 3, 4] "OTHER" 7))._port
        = "" ∧
    (sampleEnv ⟨COMPARE.NA, 0, COMPARE.NA, 0⟩ false [1, 2, 3, 4] "OTHER" 7).getPinType "PIN_A"
        = "OTHER" ∧
    (sampleMethod (sampleEnv ⟨COMPARE.NA, 0, COMPARE.NA, 0⟩ false [1, 2, 3, 4] "OTHER"
        7)).results[1]? = some (Double.finite 0) ∧
    (_execute (sampleEnv ⟨COMPARE.NA, 0, COMPARE.NA, 0⟩ false [1, 2, 3, 4] "OTHER" 7)
      (sampleMethod (sampleEnv ⟨COMPARE.NA, 0, COMPARE.NA, 0⟩ false [1, 2, 3, 4] "OTHER" 7))
      ).members.results[1]? = some (Double.finite 7) ∧
    Double.finite 7 ≠ Double.finite 0 := by
  refine ⟨by decide, by decide, by decide, by decide, by decide, by decide, by decide⟩

/-- C7, amended: a voltage measurement without BADC and without port on a pin of unknown type
runs no dc command and no wait, yet the per-site loop still writes `results[site]` for every
active site. Online the value is the one read from `rdi.id(suiteName)`. Offline it is: with
both bounds applicable, `((dHigh - dLow) / 2) + dLow` computed in `double` arithmetic (the
exact `(highBound - lowBound) / 2 + lowBound` whenever none of the three operations rounds);
the single applicable bound when exactly one is applicable; 0 when neither is. Entries of
sites that are not active keep their value. -/
theorem unclassified_pin_results (env : Env) (tm : DCMeasurement)
    (hm : tm._measure = "VOLT") (hb : tm._badc = 0) (hp : tm._port = "")
    (h1 : env.getPinType tm._pin ≠ "DCS-DPS128HC") (h2 : env.getPinType tm._pin ≠ "DCS-DPS128HV")
    (h3 : env.getPinType tm._pin ≠ "PS1600") :
    ∃ tm1 log, _execute env tm = Outcome.completed tm1 log ∧
      (∀ e ∈ log, e.isDcOrWait = false) ∧
      (∀ site ∈ env.activeSites, site < tm.results.length →
        ∃ v, tm1.results[site]? = some v ∧
          (env.offline = false → v = env.getValue tm.suiteName site) ∧
          (env.offline = true →
            (env.limits.cLow ≠ COMPARE.NA ∧ env.limits.cHigh ≠ COMPARE.NA →
              v = Double.add
                    (Double.half
                      (Double.sub (Double.finite env.limits.dHigh)
                        (Double.finite env.limits.dLow)))
                    (Double.finite env.limits.dLow) ∧
              (Double.round (env.limits.dHigh - env.limits.dLow)
                  = Double.finite (env.limits.dHigh - env.limits.dLow) →
                Double.round ((env.limits.dHigh - env.limits.dLow) / 2)
                  = Double.finite ((env.limits.dHigh - env.limits.dLow) / 2) →
                Double.round ((env.limits.dHigh - env.limits.dLow) / 2 + env.limits.dLow)
                  = Double.finite ((env.limits.dHigh - env.limits.dLow) / 2 + env.limits.dLow) →
                v = Double.finite
                  ((env.limits.dHigh - env.limits.dLow) / 2 + env.limits.dLow))) ∧
            (env.limits.cLow ≠ COMPARE.NA ∧ env.limits.cHigh = COMPARE.NA →
              v = Double.finite env.limits.dLow) ∧
            (env.limits.cLow = COMPARE.NA ∧ env.limits.cHigh ≠ COMPARE.NA →
              v = Double.finite env.limits.dHigh) ∧
            (env.limits.cLow = COMPARE.NA ∧ env.limits.cHigh = COMPARE.NA →
              v = Double.finite 0))) ∧
      (∀ i, i ∉ env.activeSites → tm1.results[i]? = tm.results[i]?) := by
  have hreach : ¬ rangeUnresolvable env tm := by
    rintro ⟨hc, -⟩
    rw [hm] at hc
    exact absurd hc (by decide)
  have hrm : resolvedMembers env tm = resolveShutdownPattern tm := by
    have hc : ¬ (tm._iRange = 0 ∧ tm._measure = "CURR") := by
      rintro ⟨-, hc⟩
      rw [hm] at hc
      exact absurd hc (by decide)
    unfold resolvedMembers resolvedRange
    rw [if_neg hc, resolveShutdownPattern_eq]
  have hmb : measurementBranch env (resolvedMembers env tm) =
      [Event.limitGet, Event.getPinType tm._pin] := by
    rw [hrm, resolveShutdownPattern_eq]
    exact measurementBranch_unclassified env _ hm hb hp h1 h2 h3
  refine ⟨_, _, execute_eq_of_resolvable env tm hreach, ?_, ?_, ?_⟩
  · intro e he
    by_contra hd
    have hd1 : e.isDcOrWait = true := by
      cases hv : e.isDcOrWait
      · exact absurd hv hd
      · rfl
    have hmem := completed_log_mem_dc env tm e he hd1
    rw [hmb] at hmem
    simp only [List.mem_cons, List.mem_singleton, List.not_mem_nil, or_false] at hmem
    rcases hmem with hmem | hmem <;> subst hmem <;> exact hd rfl
  · intro site hs hlt
    have hlt1 : site < (resolvedMembers env tm).results.length := by
      rw [resolvedMembers_results]; exact hlt
    refine ⟨siteValue env tm.suiteName site, ?_, ?_, ?_⟩
    · rw [forEachSite_results_mem env env.activeSites _ site hs hlt1, resolvedMembers_suiteName]
    · intro hoff
      simp only [siteValue, hoff, Bool.false_eq_true, if_false]
    · intro hoff
      have hv : siteValue env tm.suiteName site = offlineValue env.limits := by
        simp only [siteValue, hoff, if_true]
      rw [hv]
      exact offlineValue_cases env.limits
  · intro i hi
    rw [forEachSite_results_not_mem env env.activeSites _ i hi, resolvedMembers_results]

/-- C7, amended, on a pin of unknown type: online the run completes, issues no dc command and
site 1 holds the instrument reading 7; offline at limits low = 1.0, high = 3.0 site 1 holds
2.0. -/
theorem unclassified_pin_results_witness :
    (∃ tm1 log,
      _execute (sampleEnv ⟨COMPARE.GE, 1, COMPARE.LE, 3⟩ false [1, 2, 3, 4] "OTHER" 7)
        (sampleMethod (sampleEnv ⟨COMPARE.GE, 1, COMPARE.LE, 3⟩ false [1, 2, 3, 4] "OTHER" 7))
        = Outcome.completed tm1 log ∧
      (∀ e ∈ log, e.isDcOrWait = false) ∧ tm1.results[1]? = some (Double.finite 7)) ∧
    (∃ tm1 log,
      _execute (sampleEnv ⟨COMPARE.GE, 1, COMPARE.LE, 3⟩ true [1, 2, 3, 4] "OTHER" 7)
        (sampleMethod (sampleEnv ⟨COMPARE.GE, 1, COMPARE.LE, 3⟩ true [1, 2, 3, 4] "OTHER" 7))
        = Outcome.completed tm1 log ∧
      (∀ e ∈ log, e.isDcOrWait = false) ∧ tm1.results[1]? = some (Double.finite 2)) := by
  constructor
  · obtain ⟨tm1, log, hrun, hdc, hres, _⟩ :=
      unclassified_pin_results
        (sampleEnv ⟨COMPARE.GE, 1, COMPARE.LE, 3⟩ false [1, 2, 3, 4] "OTHER" 7)
        (sampleMethod (sampleEnv ⟨COMPARE.GE, 1, COMPARE.LE, 3⟩ false [1, 2, 3, 4] "OTHER" 7))
        (by decide) (by decide) (by decide) (by decide) (by decide) (by decide)
    obtain ⟨v, hv, hon, _⟩ := hres 1 (by decide) (by decide)
    refine ⟨tm1, log, hrun, hdc, ?_⟩
    rw [hv, hon rfl]
    rfl
  · obtain ⟨tm1, log, hrun, hdc, hres, _⟩ :=
      unclassified_pin_results
        (sampleEnv ⟨COMPARE.GE, 1, COMPARE.LE, 3⟩ true [1, 2, 3, 4] "OTHER" 7)
        (sampleMethod (sampleEnv ⟨COMPARE.GE, 1, COMPARE.LE, 3⟩ true [1, 2, 3, 4] "OTHER" 7))
        (by decide) (by decide) (by decide) (by decide) (by decide) (by decide)
    obtain ⟨v, hv, _, hoff⟩ := hres 1 (by decide) (by decide)
    refine ⟨tm1, log, hrun, hdc, ?_⟩
    rw [hv, ((hoff rfl).1 ⟨by decide, by decide⟩).1]
    decide!

/-- C9: a voltage measurement without BADC and without port on a pin whose type is none of
`DCS-DPS128HC`, `DCS-DPS128HV`, `PS1600` completes without `ERROR_EXIT`; between the functional
burst before the measurement and the shutdown burst after it the only calls are the hold-state
hook, the limit fetch and the pin-type query, and the whole run issues no dc command and no
wait. -/
theorem unclassified_pin_skipped (env : Env) (tm : DCMeasurement)
    (hm : tm._measure = "VOLT") (hb : tm._badc = 0) (hp : tm._port = "")
    (h1 : env.getPinType tm._pin ≠ "DCS-DPS128HC") (h2 : env.getPinType tm._pin ≠ "DCS-DPS128HV")
    (h3 : env.getPinType tm._pin ≠ "PS1600") :
    ∃ tm1 log, _execute env tm = Outcome.completed tm1 log ∧
      log = [Event.rdiBegin] ++ preBurst (resolveShutdownPattern tm) ++
          [Event.callHoldState, Event.limitGet, Event.getPinType tm._pin] ++
          postBurst (resolveShutdownPattern tm) ++ [Event.rdiEnd] ++
          (forEachSite env env.activeSites (resolveShutdownPattern tm)).2 ∧
      (∀ e ∈ log, e.isDcOrWait = false) := by
  have hc : ¬ (tm._iRange = 0 ∧ tm._measure = "CURR") := by
    rintro ⟨-, hc⟩
    rw [hm] at hc
    exact absurd hc (by decide)
  have hreach : ¬ rangeUnresolvable env tm := fun h => hc ⟨h.2.1, h.1⟩
  have hrm : resolvedMembers env tm = resolveShutdownPattern tm := by
    unfold resolvedMembers resolvedRange
    rw [if_neg hc, resolveShutdownPattern_eq]
  have hre : rangeEvents tm = [] := by
    unfold rangeEvents
    rw [if_neg hc]
  have hmb : measurementBranch env (resolvedMembers env tm) =
      [Event.limitGet, Event.getPinType tm._pin] := by
    rw [hrm, resolveShutdownPattern_eq]
    exact measurementBranch_unclassified env _ hm hb hp h1 h2 h3
  refine ⟨_, _, execute_eq_of_resolvable env tm hreach, ?_, ?_⟩
  · rw [hre]
    unfold rdiBlock
    rw [hmb, hrm]
    simp only [List.nil_append, List.append_assoc, List.singleton_append, List.cons_append]
  · intro e he
    by_contra hd
    have hd1 : e.isDcOrWait = true := by
      cases hv : e.isDcOrWait
      · exact absurd hv hd
      · rfl
    have hmem := completed_log_mem_dc env tm e he hd1
    rw [hmb] at hmem
    simp only [List.mem_cons, List.mem_singleton, List.not_mem_nil, or_false] at hmem
    rcases hmem with hmem | hmem <;> subst hmem <;> exact hd rfl

/-- C9 at a concrete method with default settings on a pin of unknown type. -/
theorem unclassified_pin_skipped_witness :
    ∃ tm1 log,
      _execute (sampleEnv ⟨COMPARE.GE, 1, COMPARE.LE, 3⟩ true [1, 2] "UNKNOWN" 0)
        (sampleMethod (sampleEnv ⟨COMPARE.GE, 1, COMPARE.LE, 3⟩ true [1, 2] "UNKNOWN" 0))
        = Outcome.completed tm1 log ∧
      (∀ e ∈ log, e.isDcOrWait = false) := by
  obtain ⟨tm1, log, hrun, _, hdc⟩ :=
    unclassified_pin_skipped
      (sampleEnv ⟨COMPARE.GE, 1, COMPARE.LE, 3⟩ true [1, 2] "UNKNOWN" 0)
      (sampleMethod (sampleEnv ⟨COMPARE.GE, 1, COMPARE.LE, 3⟩ true [1, 2] "UNKNOWN" 0))
      (by decide) (by decide) (by decide) (by decide) (by decide) (by decide)
  exact ⟨tm1, log, hrun, hdc⟩

/-- C10, as stated, fails: offline, a voltage measurement over two active sites calls the
limit provider three times (once in the measurement branch, once per site in the loop). -/
theorem limit_fetches_exceed_two :
    ¬ (limitFetches (_execute (sampleEnv ⟨COMPARE.NA, 0, COMPARE.NA, 0⟩ true [1, 2] "PS1600" 0)
        (sampleMethod (sampleEnv ⟨COMPARE.NA, 0, COMPARE.NA, 0⟩ true [1, 2] "PS1600" 0))).log
        ≤ 2) := by
  decide

/-- C10, amended: one run of `_execute` calls the limit provider at most once outside the
per-site loop, plus once per active site when offline; online that is at most once. -/
theorem limit_fetch_bound (env : Env) (tm : DCMeasurement) :
    limitFetches (_execute env tm).log ≤
      1 + (if env.offline then env.activeSites.length else 0) := by
  by_cases hu : rangeUnresolvable env tm
  · rw [execute_eq_of_unresolvable env tm hu]
    simp [Outcome.log, limitFetches]
  · rw [execute_eq_of_resolvable env tm hu]
    have h1 := rdiBlock_limitFetches env (resolvedMembers env tm)
    have h2 := forEachSite_limitFetches env env.activeSites (resolvedMembers env tm)
    have h3 : (resolvedMembers env tm)._measure = tm._measure := by
      unfold resolvedMembers
      rw [resolveShutdownPattern_eq]
    have h4 : limitFetches (rangeEvents tm) + limitFetches (rdiBlock env (resolvedMembers env tm))
        ≤ 1 := by
      rw [h1, h3]
      unfold rangeEvents limitFetches
      by_cases hv : tm._measure = "VOLT"
      · have hc : ¬ (tm._iRange = 0 ∧ tm._measure = "CURR") := by
          rintro ⟨-, hc⟩
          rw [hv] at hc
          exact absurd hc (by decide)
        rw [if_neg hc, if_pos hv]
        simp
      · rw [if_neg hv]
        split_ifs <;> simp
    unfold limitFetches at h2 h4 ⊢
    simp only [Outcome.log, List.count_append]
    rw [h2]
    omega

/-- C8, as stated, fails: a current measurement configured with range -1 reaches the
current-mode branch and passes -1, which is not positive, to `iRange`. -/
theorem negative_range_reaches_current_branch :
    (((sampleMethod (sampleEnv ⟨COMPARE.NA, 0, COMPARE.NA, 0⟩ false [1, 2] "PS1600" 0)).measure
        "CURR").iRange (-1))._measure = "CURR" ∧
    (∃ c,
      Event.dc c ∈
        (_execute (sampleEnv ⟨COMPARE.NA, 0, COMPARE.NA, 0⟩ false [1, 2] "PS1600" 0)
          (((sampleMethod (sampleEnv ⟨COMPARE.NA, 0, COMPARE.NA, 0⟩ false [1, 2] "PS1600"
            0)).measure "CURR").iRange (-1))).log ∧
      DcOp.iMeas ∈ c.ops ∧ DcOp.iRange (-1) ∈ c.ops) ∧
    ¬ (0 < (-1 : ℚ)) := by
  refine ⟨by decide, ⟨DcCommand.mk "" "suite_a" "PIN_A" false
      [DcOp.vForce 0, DcOp.relay Relay.ppmuRly_onPPMU_offACDC Relay.ppmuRly_onAC_offDCPPMU,
        DcOp.measWait 0, DcOp.iRange (-1), DcOp.iMeas] true,
      by decide, by decide, by decide⟩, by decide⟩

/-- C8, amended: in current mode, whenever the run of `_execute` reaches the measurement branch
(it does unless the range cannot be resolved), it completes, the branch passes the resolved
`_iRange` to `iRange`, that range is never 0, and it is strictly positive whenever the
configured range was not negative (in particular whenever it was resolved from the limits). -/
theorem current_branch_range (env : Env) (tm : DCMeasurement)
    (hm : tm._measure = "CURR") (hreach : ¬ rangeUnresolvable env tm) :
    ∃ tm1 log, _execute env tm = Outcome.completed tm1 log ∧
      (∃ c, Event.dc c ∈ log ∧ DcOp.iMeas ∈ c.ops ∧ DcOp.iRange tm1._iRange ∈ c.ops) ∧
      (∀ c r, Event.dc c ∈ log → DcOp.iRange r ∈ c.ops →
        r = tm1._iRange ∧ r ≠ 0 ∧ (0 ≤ tm._iRange → 0 < r)) := by
  have hv : (resolvedMembers env tm)._measure ≠ "VOLT" := by
    have h3 : (resolvedMembers env tm)._measure = tm._measure := by
      unfold resolvedMembers
      rw [resolveShutdownPattern_eq]
    rw [h3, hm]
    decide
  have hmb := measurementBranch_current env (resolvedMembers env tm) hv
  have hrange : (forEachSite env env.activeSites (resolvedMembers env tm)).1._iRange
      = resolvedRange env tm := by
    rw [forEachSite_iRange]
    rfl
  have hrm : (resolvedMembers env tm)._iRange = resolvedRange env tm := rfl
  have hnz : resolvedRange env tm ≠ 0 ∧ (0 ≤ tm._iRange → 0 < resolvedRange env tm) := by
    unfold resolvedRange
    by_cases hz : tm._iRange = 0
    · rw [if_pos (And.intro hz hm)]
      have hpos : 0 < max (abs (effectiveLow env.limits)) (abs (effectiveHigh env.limits)) := by
        by_cases hl : effectiveLow env.limits = 0
        · have hh : effectiveHigh env.limits ≠ 0 := fun hh => hreach ⟨hm, hz, hl, hh⟩
          exact lt_max_of_lt_right (abs_pos.mpr hh)
        · exact lt_max_of_lt_left (abs_pos.mpr hl)
      exact ⟨ne_of_gt hpos, fun _ => hpos⟩
    · have hc : ¬ (tm._iRange = 0 ∧ tm._measure = "CURR") := fun h => hz h.1
      rw [if_neg hc]
      exact ⟨hz, fun h0 => lt_of_le_of_ne h0 (Ne.symm hz)⟩
  refine ⟨_, _, execute_eq_of_resolvable env tm hreach, ?_, ?_⟩
  · refine ⟨DcCommand.mk (resolvedMembers env tm)._port (resolvedMembers env tm).suiteName
      (resolvedMembers env tm)._pin false
      [DcOp.vForce (resolvedMembers env tm)._forceValue,
        DcOp.relay Relay.ppmuRly_onPPMU_offACDC Relay.ppmuRly_onAC_offDCPPMU,
        DcOp.measWait (resolvedMembers env tm)._settlingTime,
        DcOp.iRange (resolvedMembers env tm)._iRange, DcOp.iMeas] true, ?_, ?_, ?_⟩
    · simp only [List.mem_append]
      left; right
      unfold rdiBlock
      rw [hmb]
      simp
    · simp
    · rw [hrange, ← hrm]
      simp
  · intro c r hc hr
    have hmem := completed_log_mem_dc env tm (Event.dc c) hc rfl
    rw [hmb] at hmem
    simp only [List.mem_singleton, Event.dc.injEq] at hmem
    subst hmem
    simp only [List.mem_cons, List.mem_singleton, DcOp.iRange.injEq, List.not_mem_nil,
      or_false, false_or, reduceCtorEq] at hr
    rw [hrange, hr, hrm]
    exact ⟨rfl, hnz.1, hnz.2⟩

/-- C8, amended, with the range resolved from limits (low NA, high 3): the run completes and
the current-mode branch measures under a range that is positive. -/
theorem current_branch_range_witness :
    ∃ tm1 log,
      _execute (sampleEnv ⟨COMPARE.NA, 0, COMPARE.LE, 3⟩ false [1, 2] "PS1600" 0)
        ((sampleMethod (sampleEnv ⟨COMPARE.NA, 0, COMPARE.LE, 3⟩ false [1, 2] "PS1600"
          0)).measure "CURR") = Outcome.completed tm1 log ∧
      (∃ c, Event.dc c ∈ log ∧ DcOp.iMeas ∈ c.ops ∧ DcOp.iRange tm1._iRange ∈ c.ops) ∧
      0 < tm1._iRange := by
  obtain ⟨tm1, log, hrun, ⟨c, hc, hi, hr⟩, hall⟩ :=
    current_branch_range
      (sampleEnv ⟨COMPARE.NA, 0, COMPARE.LE, 3⟩ false [1, 2] "PS1600" 0)
      ((sampleMethod (sampleEnv ⟨COMPARE.NA, 0, COMPARE.LE, 3⟩ false [1, 2] "PS1600"
        0)).measure "CURR")
      (by decide) (by decide)
  exact ⟨tm1, log, hrun, ⟨c, hc, hi, hr⟩, (hall c tm1._iRange hc hr).2.2 (by decide)⟩

/-! ## Judging -/

theorem mem_smcLoop (env : Env) (tm : DCMeasurement) (sites : List Nat) (e : JudgeEvent) :
    e ∈ smcLoop env tm sites ↔ ∃ s ∈ sites, e ∈ smcSite env tm s := by
  induction sites with
  | nil => simp [smcLoop]
  | cons site rest ih =>
    simp only [smcLoop, List.mem_append, ih, List.mem_cons, exists_eq_or_imp]

/-- A count that is the same for every site adds up over the loop. -/
theorem smcLoop_countP (env : Env) (tm : DCMeasurement) (f : JudgeEvent → Bool) (k : Nat)
    (h : ∀ s, (smcSite env tm s).countP f = k) (sites : List Nat) :
    (smcLoop env tm sites).countP f = sites.length * k := by
  induction sites with
  | nil => simp [smcLoop]
  | cons site rest ih =>
    simp only [smcLoop, List.countP_append, ih, h, List.length_cons]
    ring

/-- The calls of `serialProcessing` that forward a functional-post result. -/
theorem serialProcessing_funcPost (env : Env) (tm : DCMeasurement) (site : Nat) (e : JudgeEvent) :
    (e ∈ serialProcessing env tm site ∧ e.forwardsFuncPost = true) ↔
      ((tm._processResults ≠ 0 ∧ tm._applyShutdown ≠ 0 ∧ tm._checkShutdown ≠ 0) ∧
        e = JudgeEvent.judgeAndDatalog (env.testName ++ "_FUNCPOST")
          (Judged.funcPost
            (env.invertFunctionalResultIfRequired (tm.funcResultsPost.getD site 0)))) := by
  unfold serialProcessing
  constructor
  · rintro ⟨hmem, hf⟩
    split_ifs at hmem with hp hs
    · simp only [List.mem_append, List.mem_cons, List.mem_singleton, List.not_mem_nil,
        or_false] at hmem
      rcases hmem with (h | h) | h
      · subst h; exact absurd hf (by simp [JudgeEvent.forwardsFuncPost])
      · subst h; exact absurd hf (by simp [JudgeEvent.forwardsFuncPost])
      · exact ⟨⟨hp, hs.1, hs.2⟩, h⟩
    · simp only [List.mem_append, List.mem_cons, List.mem_singleton, List.not_mem_nil,
        or_false] at hmem
      rcases hmem with h | h
      · subst h; exact absurd hf (by simp [JudgeEvent.forwardsFuncPost])
      · subst h; exact absurd hf (by simp [JudgeEvent.forwardsFuncPost])
    · simp at hmem
  · rintro ⟨⟨hp, ha, hc⟩, he⟩
    subst he
    rw [if_pos hp, if_pos (And.intro ha hc)]
    exact ⟨by simp, rfl⟩

/-- The calls made for one site by `SMC_backgroundProcessing` that forward a functional-post
result. -/
theorem smcSite_funcPost (env : Env) (tm : DCMeasurement) (site : Nat) (e : JudgeEvent) :
    (e ∈ smcSite env tm site ∧ e.forwardsFuncPost = true) ↔
      ((tm._processResults ≠ 0 ∧ tm._applyShutdown ≠ 0 ∧ tm._checkShutdown ≠ 0) ∧
        e = JudgeEvent.SMC_TEST site "" tm.suiteName passRange
          (Judged.funcPost (tm.funcResultsPost.getD site 0))) := by
  unfold smcSite
  constructor
  · rintro ⟨hmem, hf⟩
    split_ifs at hmem with hp hs
    · simp only [List.mem_append, List.mem_cons, List.mem_singleton, List.not_mem_nil,
        or_false] at hmem
      rcases hmem with h | (h | h) | h
      · subst h; exact absurd hf (by simp [JudgeEvent.forwardsFuncPost])
      · subst h; exact absurd hf (by simp [JudgeEvent.forwardsFuncPost])
      · exact ⟨⟨hp, hs.1, hs.2⟩, h⟩
      · subst h; exact absurd hf (by simp [JudgeEvent.forwardsFuncPost])
    · simp only [List.mem_append, List.mem_cons, List.mem_singleton, List.not_mem_nil,
        or_false] at hmem
      rcases hmem with h | h | h
      · subst h; exact absurd hf (by simp [JudgeEvent.forwardsFuncPost])
      · subst h; exact absurd hf (by simp [JudgeEvent.forwardsFuncPost])
      · subst h; exact absurd hf (by simp [JudgeEvent.forwardsFuncPost])
    · simp only [List.mem_append, List.mem_cons, List.mem_singleton, List.not_mem_nil,
        or_false] at hmem
      subst hmem; exact absurd hf (by simp [JudgeEvent.forwardsFuncPost])
  · rintro ⟨⟨hp, ha, hc⟩, he⟩
    subst he
    rw [if_pos hp, if_pos (And.intro ha hc)]
    exact ⟨by simp, rfl⟩

/-- The calls made for one site by `SMC_backgroundProcessing` when results are processed and
apply-shutdown is off. -/
theorem smcSite_without_shutdown (env : Env) (tm : DCMeasurement) (site : Nat)
    (hp : tm._processResults ≠ 0) (ha : tm._applyShutdown = 0) :
    smcSite env tm site =
      [JudgeEvent.process site,
       JudgeEvent.SMC_TEST site "" tm.suiteName passRange
         (Judged.funcPre (tm.funcResultsPre.getD site 0)),
       JudgeEvent.SMC_TEST site tm._pin tm.suiteName env.limits
         (Judged.measured (env.filterResult (tm.results.getD site (Double.finite 0))))] := by
  have hs : ¬ (tm._applyShutdown ≠ 0 ∧ tm._checkShutdown ≠ 0) := fun h => h.1 ha
  simp only [smcSite, if_pos hp, if_neg hs, List.append_nil, List.singleton_append,
    List.cons_append, List.nil_append]

/-- C4, as stated, fails: with apply-shutdown and check-shutdown both set but process-results
cleared, neither `serialProcessing` nor `SMC_backgroundProcessing` forwards the functional-post
result. -/
theorem funcPost_dropped_without_processResults :
    ((sampleMethod (sampleEnv ⟨COMPARE.GE, 1, COMPARE.LE, 3⟩ false [1, 2, 3, 4] "PS1600"
        0)).processResults 0)._applyShutdown ≠ 0 ∧
    ((sampleMethod (sampleEnv ⟨COMPARE.GE, 1, COMPARE.LE, 3⟩ false [1, 2, 3, 4] "PS1600"
        0)).processResults 0)._checkShutdown ≠ 0 ∧
    (∀ e ∈ serialProcessing (sampleEnv ⟨COMPARE.GE, 1, COMPARE.LE, 3⟩ false [1, 2, 3, 4] "PS1600" 0)
        ((sampleMethod (sampleEnv ⟨COMPARE.GE, 1, COMPARE.LE, 3⟩ false [1, 2, 3, 4] "PS1600"
          0)).processResults 0) 1,
      e.forwardsFuncPost = false) ∧
    (∀ e ∈ SMC_backgroundProcessing
        (sampleEnv ⟨COMPARE.GE, 1, COMPARE.LE, 3⟩ false [1, 2, 3, 4] "PS1600" 0)
        ((sampleMethod (sampleEnv ⟨COMPARE.GE, 1, COMPARE.LE, 3⟩ false [1, 2, 3, 4] "PS1600"
          0)).processResults 0),
      e.forwardsFuncPost = false) := by
  refine ⟨by decide, by decide, by decide, by decide⟩

/-- C4, amended: for an active site, `serialProcessing` and `SMC_backgroundProcessing` forward
the functional-post result `funcResultsPost[site]` to the judge call if and only if
process-results, apply-shutdown and check-shutdown are all set; otherwise no call forwards a
functional-post result. -/
theorem funcPost_judged_iff (env : Env) (tm : DCMeasurement) (site : Nat)
    (hs : site ∈ env.activeSites) :
    ((∃ e ∈ serialProcessing env tm site, e.forwardsFuncPost = true) ↔
      (tm._processResults ≠ 0 ∧ tm._applyShutdown ≠ 0 ∧ tm._checkShutdown ≠ 0)) ∧
    ((∃ e ∈ SMC_backgroundProcessing env tm, e.forwardsFuncPost = true) ↔
      (tm._processResults ≠ 0 ∧ tm._applyShutdown ≠ 0 ∧ tm._checkShutdown ≠ 0)) ∧
    (JudgeEvent.judgeAndDatalog (env.testName ++ "_FUNCPOST")
        (Judged.funcPost (env.invertFunctionalResultIfRequired (tm.funcResultsPost.getD site 0)))
        ∈ serialProcessing env tm site ↔
      (tm._processResults ≠ 0 ∧ tm._applyShutdown ≠ 0 ∧ tm._checkShutdown ≠ 0)) ∧
    (JudgeEvent.SMC_TEST site "" tm.suiteName passRange
        (Judged.funcPost (tm.funcResultsPost.getD site 0))
        ∈ SMC_backgroundProcessing env tm ↔
      (tm._processResults ≠ 0 ∧ tm._applyShutdown ≠ 0 ∧ tm._checkShutdown ≠ 0)) := by
  refine ⟨?_, ?_, ?_, ?_⟩
  · constructor
    · rintro ⟨e, he, hf⟩
      exact ((serialProcessing_funcPost env tm site e).mp ⟨he, hf⟩).1
    · intro hP
      have h := (serialProcessing_funcPost env tm site _).mpr ⟨hP, rfl⟩
      exact ⟨_, h.1, h.2⟩
  · constructor
    · rintro ⟨e, he, hf⟩
      obtain ⟨s, -, hes⟩ := (mem_smcLoop env tm env.activeSites e).mp he
      exact ((smcSite_funcPost env tm s e).mp ⟨hes, hf⟩).1
    · intro hP
      have h := (smcSite_funcPost env tm site _).mpr ⟨hP, rfl⟩
      exact ⟨_, (mem_smcLoop env tm env.activeSites _).mpr ⟨site, hs, h.1⟩, h.2⟩
  · constructor
    · intro he
      exact ((serialProcessing_funcPost env tm site _).mp ⟨he, rfl⟩).1
    · intro hP
      exact ((serialProcessing_funcPost env tm site _).mpr ⟨hP, rfl⟩).1
  · constructor
    · intro he
      obtain ⟨s, -, hes⟩ := (mem_smcLoop env tm env.activeSites _).mp he
      exact ((smcSite_funcPost env tm s _).mp ⟨hes, rfl⟩).1
    · intro hP
      have h := (smcSite_funcPost env tm site _).mpr ⟨hP, rfl⟩
      exact (mem_smcLoop env tm env.activeSites _).mpr ⟨site, hs, h.1⟩

/-- C4, amended, at the default settings (all three flags set): the functional-post result of
site 1 is forwarded by both methods. -/
theorem funcPost_judged_iff_witness :
    (∃ e ∈ serialProcessing (sampleEnv ⟨COMPARE.GE, 1, COMPARE.LE, 3⟩ false [1, 2, 3, 4] "PS1600" 0)
        (sampleMethod (sampleEnv ⟨COMPARE.GE, 1, COMPARE.LE, 3⟩ false [1, 2, 3, 4] "PS1600" 0)) 1,
      e.forwardsFuncPost = true) ∧
    (∃ e ∈ SMC_backgroundProcessing
        (sampleEnv ⟨COMPARE.GE, 1, COMPARE.LE, 3⟩ false [1, 2, 3, 4] "PS1600" 0)
        (sampleMethod (sampleEnv ⟨COMPARE.GE, 1, COMPARE.LE, 3⟩ false [1, 2, 3, 4] "PS1600" 0)),
      e.forwardsFuncPost = true) :=
  ⟨(funcPost_judged_iff (sampleEnv ⟨COMPARE.GE, 1, COMPARE.LE, 3⟩ false [1, 2, 3, 4] "PS1600" 0)
      (sampleMethod (sampleEnv ⟨COMPARE.GE, 1, COMPARE.LE, 3⟩ false [1, 2, 3, 4] "PS1600" 0)) 1
      (by decide)).1.mpr (by decide),
   (funcPost_judged_iff (sampleEnv ⟨COMPARE.GE, 1, COMPARE.LE, 3⟩ false [1, 2, 3, 4] "PS1600" 0)
      (sampleMethod (sampleEnv ⟨COMPARE.GE, 1, COMPARE.LE, 3⟩ false [1, 2, 3, 4] "PS1600" 0)) 1
      (by decide)).2.1.mpr (by decide)⟩

/-- C6: current mode, range unset, offline, limits (low NA, high 2.5), process-results set,
apply-shutdown off, four active sites within the result vector. The run of `_execute`
completes with range 2.5 and 2.5 in `results[site]` for each active site; after it
`SMC_backgroundProcessing` makes exactly 8 judge calls: 4 forward a functional-pre result, 4
forward a measured value and none forwards a functional-post result. For each active site the
functional-pre call is `SMC_TEST(site, "", suiteName, LIMIT(TM::GE, 1, TM::LE, 1), ...)`, and
every call that forwards a functional-pre result judges against that range [1, 1]; the limit
call is `SMC_TEST(site, _pin, suiteName, TEST_API_LIMIT, ...)` on the filtered 2.5. -/
theorem end_to_end_scenario (env : Env) (tm : DCMeasurement)
    (hm : tm._measure = "CURR") (hr : tm._iRange = 0) (hoff : env.offline = true)
    (hl : env.limits.cLow = COMPARE.NA) (hh : env.limits.cHigh ≠ COMPARE.NA)
    (hd : env.limits.dHigh = 5 / 2)
    (hp : tm._processResults ≠ 0) (ha : tm._applyShutdown = 0)
    (hn : env.activeSites.length = 4) (hb : ∀ s ∈ env.activeSites, s < tm.results.length) :
    ∃ tm1 log, _execute env tm = Outcome.completed tm1 log ∧
      tm1._iRange = 5 / 2 ∧
      (∀ s ∈ env.activeSites, tm1.results[s]? = some (Double.finite (5 / 2))) ∧
      (SMC_backgroundProcessing env tm1).countP JudgeEvent.isJudgeCall = 8 ∧
      (SMC_backgroundProcessing env tm1).countP JudgeEvent.forwardsFuncPre = 4 ∧
      (SMC_backgroundProcessing env tm1).countP JudgeEvent.forwardsMeasured = 4 ∧
      (SMC_backgroundProcessing env tm1).countP JudgeEvent.forwardsFuncPost = 0 ∧
      (∀ s ∈ env.activeSites,
        JudgeEvent.SMC_TEST s "" tm.suiteName ⟨COMPARE.GE, 1, COMPARE.LE, 1⟩
            (Judged.funcPre (tm1.funcResultsPre.getD s 0)) ∈ SMC_backgroundProcessing env tm1 ∧
        JudgeEvent.SMC_TEST s tm._pin tm.suiteName env.limits
            (Judged.measured (env.filterResult (Double.finite (5 / 2))))
          ∈ SMC_backgroundProcessing env tm1) ∧
      (∀ s pin suite limit v,
        JudgeEvent.SMC_TEST s pin suite limit (Judged.funcPre v)
            ∈ SMC_backgroundProcessing env tm1 →
          limit = ⟨COMPARE.GE, 1, COMPARE.LE, 1⟩) ∧
      (∀ name v, JudgeEvent.judgeAndDatalog name v ∉ SMC_backgroundProcessing env tm1) := by
  have hlow : effectiveLow env.limits = 0 := by
    simp only [effectiveLow, if_pos hl]
  have hhigh : effectiveHigh env.limits = 5 / 2 := by
    simp only [effectiveHigh, if_neg hh, hd]
  have hreach : ¬ rangeUnresolvable env tm := by
    rintro ⟨-, -, -, h0⟩
    rw [hhigh] at h0
    norm_num at h0
  have hrange : resolvedRange env tm = 5 / 2 := by
    simp only [resolvedRange, if_pos (And.intro hr hm), hlow, hhigh]
    norm_num
  have hoffv : offlineValue env.limits = Double.finite (5 / 2) := by
    rw [(offlineValue_cases env.limits).2.2.1 ⟨hl, hh⟩, hd]
  have hres : ∀ s ∈ env.activeSites,
      (forEachSite env env.activeSites (resolvedMembers env tm)).1.results[s]?
        = some (Double.finite (5 / 2)) := by
    intro s hs
    have hlt1 : s < (resolvedMembers env tm).results.length := by
      rw [resolvedMembers_results]; exact hb s hs
    rw [forEachSite_results_mem env env.activeSites _ s hs hlt1]
    simp only [siteValue, hoff, if_true, hoffv]
  have hflags := forEachSite_flags env env.activeSites (resolvedMembers env tm)
  have hp1 : (forEachSite env env.activeSites (resolvedMembers env tm)).1._processResults ≠ 0 := by
    rw [hflags.1]
    unfold resolvedMembers
    rw [resolveShutdownPattern_eq]
    exact hp
  have ha1 : (forEachSite env env.activeSites (resolvedMembers env tm)).1._applyShutdown = 0 := by
    rw [hflags.2.1]
    unfold resolvedMembers
    rw [resolveShutdownPattern_eq]
    exact ha
  have hsuite : (forEachSite env env.activeSites (resolvedMembers env tm)).1.suiteName
      = tm.suiteName := by
    rw [forEachSite_suiteName, resolvedMembers_suiteName]
  have hpin : (forEachSite env env.activeSites (resolvedMembers env tm)).1._pin = tm._pin := by
    rw [forEachSite_preserves (fun t => t._pin)
      (by intro env tm site; simp only [siteBodyMembers]; split_ifs <;> rfl)]
    unfold resolvedMembers
    rw [resolveShutdownPattern_eq]
  have hsite := fun s => smcSite_without_shutdown env
    (forEachSite env env.activeSites (resolvedMembers env tm)).1 s hp1 ha1
  refine ⟨_, _, execute_eq_of_resolvable env tm hreach, ?_, hres, ?_, ?_, ?_, ?_, ?_, ?_, ?_⟩
  · rw [forEachSite_iRange]
    exact hrange
  · unfold SMC_backgroundProcessing
    rw [smcLoop_countP env _ JudgeEvent.isJudgeCall 2
      (fun s => by rw [hsite s]; rfl), hn]
  · unfold SMC_backgroundProcessing
    rw [smcLoop_countP env _ JudgeEvent.forwardsFuncPre 1
      (fun s => by rw [hsite s]; rfl), hn]
  · unfold SMC_backgroundProcessing
    rw [smcLoop_countP env _ JudgeEvent.forwardsMeasured 1
      (fun s => by rw [hsite s]; rfl), hn]
  · unfold SMC_backgroundProcessing
    rw [smcLoop_countP env _ JudgeEvent.forwardsFuncPost 0
      (fun s => by rw [hsite s]; rfl), hn]
  · intro s hs
    have hget : (forEachSite env env.activeSites (resolvedMembers env tm)).1.results.getD s
        (Double.finite 0) = Double.finite (5 / 2) := by
      rw [List.getD_eq_getElem?_getD, hres s hs]
      rfl
    unfold SMC_backgroundProcessing
    constructor
    · refine (mem_smcLoop env _ env.activeSites _).mpr ⟨s, hs, ?_⟩
      rw [hsite s, hsuite]
      simp [passRange]
    · refine (mem_smcLoop env _ env.activeSites _).mpr ⟨s, hs, ?_⟩
      rw [hsite s, hsuite, hpin, hget]
      simp
  · intro s pin suite limit v hmem
    unfold SMC_backgroundProcessing at hmem
    obtain ⟨s1, -, hmem1⟩ := (mem_smcLoop env _ env.activeSites _).mp hmem
    rw [hsite s1] at hmem1
    simp only [List.mem_cons, List.mem_singleton, List.not_mem_nil, or_false,
      JudgeEvent.SMC_TEST.injEq, reduceCtorEq, false_or, and_false] at hmem1
    rw [hmem1.2.2.2.1]
    rfl
  · intro name v hmem
    unfold SMC_backgroundProcessing at hmem
    obtain ⟨s1, -, hmem1⟩ := (mem_smcLoop env _ env.activeSites _).mp hmem
    rw [hsite s1] at hmem1
    simp at hmem1

/-- C6 on sites 1 to 4 of a method built by the constructor, the setters and `_setup`. -/
theorem end_to_end_scenario_witness :
    ∃ tm1 log,
      _execute (sampleEnv ⟨COMPARE.NA, 0, COMPARE.LE, 5 / 2⟩ true [1, 2, 3, 4] "PS1600" 0)
        (((sampleMethod (sampleEnv ⟨COMPARE.NA, 0, COMPARE.LE, 5 / 2⟩ true [1, 2, 3, 4] "PS1600"
          0)).measure "CURR").applyShutdown 0) = Outcome.completed tm1 log ∧
      tm1._iRange = 5 / 2 ∧
      (∀ s ∈ [1, 2, 3, 4], tm1.results[s]? = some (Double.finite (5 / 2))) ∧
      (SMC_backgroundProcessing
        (sampleEnv ⟨COMPARE.NA, 0, COMPARE.LE, 5 / 2⟩ true [1, 2, 3, 4] "PS1600" 0)
        tm1).countP JudgeEvent.isJudgeCall = 8 ∧
      (SMC_backgroundProcessing
        (sampleEnv ⟨COMPARE.NA, 0, COMPARE.LE, 5 / 2⟩ true [1, 2, 3, 4] "PS1600" 0)
        tm1).countP JudgeEvent.forwardsFuncPost = 0 ∧
      (∀ s ∈ [1, 2, 3, 4],
        JudgeEvent.SMC_TEST s "" "suite_a" ⟨COMPARE.GE, 1, COMPARE.LE, 1⟩
            (Judged.funcPre (tm1.funcResultsPre.getD s 0))
          ∈ SMC_backgroundProcessing
            (sampleEnv ⟨COMPARE.NA, 0, COMPARE.LE, 5 / 2⟩ true [1, 2, 3, 4] "PS1600" 0) tm1) := by
  obtain ⟨tm1, log, hrun, hrange, hres, hcalls, _, _, hpost, hper, _, _⟩ :=
    end_to_end_scenario
      (sampleEnv ⟨COMPARE.NA, 0, COMPARE.LE, 5 / 2⟩ true [1, 2, 3, 4] "PS1600" 0)
      (((sampleMethod (sampleEnv ⟨COMPARE.NA, 0, COMPARE.LE, 5 / 2⟩ true [1, 2, 3, 4] "PS1600"
        0)).measure "CURR").applyShutdown 0)
      (by decide) (by decide) rfl (by decide) (by decide) rfl (by decide) (by decide)
      (by decide) (by decide)
  exact ⟨tm1, log, hrun, hrange, hres, hcalls, hpost, fun s hs => (hper s hs).1⟩

end DCMeasurement

end Origen.TestMethod
